import Mathlib

/-!
CineSync media pipeline — verification of the identification/destination core.

Shallow embedding of the CineSync pipeline (`Scripts/library.py` and
`MediaHub/api/tmdb_api.py`) and proofs about its query normalizer, metadata
resolver cascade, variation index, path resolver and symlink materializer.

Python strings are modelled as Lean `String`/`List Char` (the inputs of this
pipeline are ASCII file and folder names); Python `re` operations are
translated into explicit character scanners with Python's word-boundary
(`\b`, one side in `[A-Za-z0-9_]`, the other not) and whitespace semantics.
Network and filesystem effects are modelled as explicit oracles / state.
-/

set_option autoImplicit false

namespace CineSync

/-! ## Character classes (Python `re` over ASCII inputs) -/

/-- Python `\w` over ASCII: `[A-Za-z0-9_]`. -/
def isWordChar (c : Char) : Bool :=
  (97 ≤ c.toNat && c.toNat ≤ 122) || (65 ≤ c.toNat && c.toNat ≤ 90) ||
  (48 ≤ c.toNat && c.toNat ≤ 57) || c == '_'

/-- Python `\s` over ASCII. -/
def isSpaceChar (c : Char) : Bool :=
  c == ' ' || c == '\t' || c == '\n' || c == '\r' || c == '\x0b' || c == '\x0c'

/-- Python `\d` over ASCII. -/
def isDigitChar (c : Char) : Bool :=
  48 ≤ c.toNat && c.toNat ≤ 57

/-- Python `str.lower` on ASCII. -/
def lowerChar (c : Char) : Char :=
  if 65 ≤ c.toNat && c.toNat ≤ 90 then Char.ofNat (c.toNat + 32) else c

/-- A `\b` boundary holds just before a word character when the previous
character (if any) is not a word character. -/
def boundaryBefore (prev : Option Char) : Bool :=
  match prev with
  | none => true
  | some c => !isWordChar c

/-- A `\b` boundary holds just after a word character when the next
character (if any) is not a word character. -/
def boundaryAfter (rest : List Char) : Bool :=
  match rest with
  | [] => true
  | c :: _ => !isWordChar c

/-! ## Generic list/string helpers -/

/-- Python `str.strip` (leading and trailing whitespace). -/
def stripL (s : List Char) : List Char :=
  ((s.dropWhile isSpaceChar).reverse.dropWhile isSpaceChar).reverse

/-- Python `str.rstrip`. -/
def rstripL (s : List Char) : List Char :=
  (s.reverse.dropWhile isSpaceChar).reverse

/-- `re.sub(r'\s+', ' ', s)`: each whitespace run becomes a single space.
The flag records whether the previous character was whitespace. -/
def collapseWsAux : Bool → List Char → List Char
  | _, [] => []
  | prevSpace, c :: cs =>
    if isSpaceChar c then
      if prevSpace then collapseWsAux true cs
      else ' ' :: collapseWsAux true cs
    else c :: collapseWsAux false cs

/-- `re.sub(r'\s+', ' ', s).strip()`. -/
def collapseStripL (s : List Char) : List Char :=
  stripL (collapseWsAux false s)

/-- The collapsed-whitespace invariant established by `collapseWsAux`:
every whitespace character is a plain space and no two are adjacent; the
flag records whether the previous character was whitespace. -/
def collapsedAux : Bool → List Char → Bool
  | _, [] => true
  | prevSpace, c :: cs =>
    if isSpaceChar c then
      if prevSpace then false else c == ' ' && collapsedAux true cs
    else collapsedAux false cs

/-- Case-insensitive literal prefix match; returns the remainder on success. -/
def matchPrefixCI : List Char → List Char → Option (List Char)
  | [], s => some s
  | _ :: _, [] => none
  | k :: ks, c :: cs =>
    if lowerChar c == lowerChar k then matchPrefixCI ks cs else none

/-! ## `clean_query` (Scripts/library.py, lines 389-410) -/

/-- The keyword vocabulary removed by `clean_query`. -/
def removeKeywords : List String :=
  ["Unrated", "Remastered", "IMAX", "Extended", "BDRemux", "ITA", "ENG",
   "x265", "H265", "HDR10", "WebDl", "Rip", "4K", "HDR", "DV", "2160p",
   "BDRip", "AC3", "5.1", "Sub", "NAHOM", "mkv", "Complete"]

/-- One pass of `re.sub(r'\b<kw>\b', '', s, flags=re.IGNORECASE)`.
`re.sub` matches against the original string left to right without overlap,
so after a removal scanning resumes right after the removed occurrence; the
previous-character information used for `\b` is threaded through `prev`.
Every keyword starts and ends with a word character, so after a removal the
effective previous character is the final character of the keyword.
The fuel argument (initially the string length) only makes the recursion
structural: every step consumes at least one character. -/
def removeWordAux (k0 : Char) (ks : List Char) : Nat → Option Char → List Char → List Char
  | 0, _, s => s
  | _ + 1, _, [] => []
  | fuel + 1, prev, c :: cs =>
    match matchPrefixCI (k0 :: ks) (c :: cs) with
    | some rest =>
      if boundaryBefore prev && boundaryAfter rest then
        removeWordAux k0 ks fuel (some ((k0 :: ks).getLastD '_')) rest
      else c :: removeWordAux k0 ks fuel (some c) cs
    | none => c :: removeWordAux k0 ks fuel (some c) cs

/-- `re.sub(r'\b' + re.escape(kw) + r'\b', '', s, flags=re.IGNORECASE)`. -/
def removeWordL (kw : List Char) (s : List Char) : List Char :=
  match kw with
  | [] => s
  | k0 :: ks => removeWordAux k0 ks s.length none s

/-- The keyword-removal loop of `clean_query`. -/
def stripKeywordsL (s : List Char) : List Char :=
  removeKeywords.foldl (fun acc kw => removeWordL kw.toList acc) s

/-- `re.sub(r'\bS\d{2}\b.*', '', q, flags=re.IGNORECASE)`: drop everything
from a season marker onward. -/
def stripSeasonTailAux : Option Char → List Char → List Char
  | _, [] => []
  | prev, c :: cs =>
    if boundaryBefore prev && (c == 'S' || c == 's') then
      match cs with
      | d1 :: d2 :: rest =>
        if isDigitChar d1 && isDigitChar d2 && boundaryAfter rest then []
        else c :: stripSeasonTailAux (some c) cs
      | _ => c :: stripSeasonTailAux (some c) cs
    else c :: stripSeasonTailAux (some c) cs

def stripSeasonTailL (s : List Char) : List Char :=
  stripSeasonTailAux none s

/-- Helper for `\(\s*\)`: given the characters after a '(', if whitespace
followed by ')' leads, return what follows the ')'. -/
def dropEmptyParen : List Char → Option (List Char)
  | [] => none
  | c :: cs =>
    if c == ')' then some cs
    else if isSpaceChar c then dropEmptyParen cs
    else none

/-- `re.sub(r'\(\s*\)', '', q)`, with a structural fuel argument
(every step consumes at least one character). -/
def removeEmptyParensAux : Nat → List Char → List Char
  | 0, s => s
  | _ + 1, [] => []
  | fuel + 1, c :: cs =>
    if c == '(' then
      match dropEmptyParen cs with
      | some rest => removeEmptyParensAux fuel rest
      | none => c :: removeEmptyParensAux fuel cs
    else c :: removeEmptyParensAux fuel cs

def removeEmptyParensL (s : List Char) : List Char :=
  removeEmptyParensAux s.length s

/-- `re.search(r'\b(\d{4})\b', q)`: first word-bounded 4-digit run, returned
as (characters before the match, the four digits). -/
def findYearAux : Option Char → List Char → Option (List Char × List Char)
  | _, [] => none
  | prev, c :: cs =>
    let fallback : Option (List Char × List Char) :=
      match findYearAux (some c) cs with
      | some (pre, yr) => some (c :: pre, yr)
      | none => none
    if boundaryBefore prev && isDigitChar c then
      match cs with
      | d2 :: d3 :: d4 :: rest =>
        if isDigitChar d2 && isDigitChar d3 && isDigitChar d4 && boundaryAfter rest then
          some ([], [c, d2, d3, d4])
        else fallback
      | _ => fallback
    else fallback

/-- `clean_query` (Scripts/library.py): keyword removal, season-marker
truncation, empty-parenthesis removal, whitespace collapse, then extraction
of the first word-bounded 4-digit year (title is the stripped prefix before
the year match; the year is returned as a string). -/
def cleanQueryL (q : List Char) : List Char × Option (List Char) :=
  let q1 := stripKeywordsL q
  let q2 := stripSeasonTailL q1
  let q3 := removeEmptyParensL q2
  let q4 := collapseStripL q3
  match findYearAux none q4 with
  | some (pre, yr) => (stripL pre, some yr)
  | none => (q4, none)

def clean_query (q : String) : String × Option String :=
  match cleanQueryL q.toList with
  | (t, y) => (String.mk t, y.map String.mk)

/-! ## Further string helpers (Python built-ins) -/

/-- Exact literal prefix test. -/
def matchPrefixExact : List Char → List Char → Bool
  | [], _ => true
  | _ :: _, [] => false
  | k :: ks, c :: cs => k == c && matchPrefixExact ks cs

/-- Python `needle in hay` (substring containment). -/
def strInL (needle : List Char) : List Char → Bool
  | [] => matchPrefixExact needle []
  | c :: cs => matchPrefixExact needle (c :: cs) || strInL needle cs

def strIn (needle hay : String) : Bool :=
  strInL needle.toList hay.toList

/-- Case-insensitive substring containment (an unanchored `re.search` for a
literal pattern with `re.IGNORECASE`). -/
def strInCIL (needle : List Char) : List Char → Bool
  | [] => (matchPrefixCI needle []).isSome
  | c :: cs => (matchPrefixCI needle (c :: cs)).isSome || strInCIL needle cs

/-- Python `str.lower` on ASCII strings. -/
def lowerStr (s : String) : String :=
  String.mk (s.toList.map lowerChar)

/-- `os.path.join` for the relative components used by this pipeline. -/
def pjoin (a b : String) : String :=
  a ++ "/" ++ b

/-- `os.path.basename`. -/
def basenameStr (s : String) : String :=
  String.mk ((s.toList.reverse.takeWhile (fun c => c ≠ '/')).reverse)

/-- The extension part (with dot) of `os.path.splitext`, for a basename. -/
def splitextExt (f : String) : String :=
  let r := f.toList.reverse
  let extRev := r.takeWhile (fun c => c ≠ '.')
  if extRev.length == r.length then ""
  else
    let beforeDot := r.drop (extRev.length + 1)
    if beforeDot.all (fun c => c == '.') then ""
    else String.mk ('.' :: extRev.reverse)

/-- Python `int` on a (non-empty) digit string; leading zeros allowed. -/
def digitsToNat (l : List Char) : Nat :=
  l.foldl (fun a c => a * 10 + (c.toNat - 48)) 0

/-- `f"{n:02d}"` and `str(n).zfill(2)` for naturals. -/
def pad2 (n : Nat) : String :=
  if n < 10 then "0" ++ toString n else toString n

/-! ## `normalize_query` (Scripts/library.py, lines 412-416) -/

/-- `normalize_query`: `[._-]` to spaces, drop characters outside
`[\w\s()-]`, collapse whitespace and strip. -/
def normalize_query (q : String) : String :=
  let s1 := q.toList.map (fun c => if c == '.' || c == '_' || c == '-' then ' ' else c)
  let s2 := s1.filter (fun c => isWordChar c || isSpaceChar c || c == '(' || c == ')' || c == '-')
  String.mk (collapseStripL s2)

/-! ## `extract_year` (Scripts/library.py, lines 310-317) -/

/-- `re.search(r'\((\d{4})\)$', s)` as a suffix test, returning the digits. -/
def parenYearSuffix (s : List Char) : Option (List Char) :=
  match s.reverse with
  | ')' :: d4 :: d3 :: d2 :: d1 :: '(' :: _ =>
    if isDigitChar d1 && isDigitChar d2 && isDigitChar d3 && isDigitChar d4 then
      some [d1, d2, d3, d4]
    else none
  | _ => none

/-- `re.search(r'(\d{4})$', s)`: the last four characters, if digits. -/
def plainYearSuffix (s : List Char) : Option (List Char) :=
  match s.reverse with
  | d4 :: d3 :: d2 :: d1 :: _ =>
    if isDigitChar d1 && isDigitChar d2 && isDigitChar d3 && isDigitChar d4 then
      some [d1, d2, d3, d4]
    else none
  | _ => none

/-- `extract_year`: a `(dddd)` suffix of the stripped string, else a bare
`dddd` suffix, as an integer. -/
def extract_year (q : String) : Option Nat :=
  let s := stripL q.toList
  match parenYearSuffix s with
  | some yr => some (digitsToNat yr)
  | none =>
    match plainYearSuffix s with
    | some yr => some (digitsToNat yr)
    | none => none

/-! ## `extract_folder_year` (Scripts/library.py, lines 341-356) -/

/-- `<open>dddd<close>` at the head of the string, returning the digits. -/
def delimYearAt (openc closec : Char) (s : List Char) : Option (List Char) :=
  match s with
  | o :: d1 :: d2 :: d3 :: d4 :: c :: _ =>
    if o == openc && isDigitChar d1 && isDigitChar d2 && isDigitChar d3 &&
        isDigitChar d4 && c == closec then
      some [d1, d2, d3, d4]
    else none
  | _ => none

/-- First occurrence of `<open>dddd<close>` (`re.search` tries each
position in turn), returning the four digit characters. -/
def scanDelimYear (openc closec : Char) : List Char → Option (List Char)
  | [] => none
  | c :: cs =>
    match delimYearAt openc closec (c :: cs) with
    | some yr => some yr
    | none => scanDelimYear openc closec cs

/-- First occurrence of `\((\d{4})\)`. -/
def scanParenYear (s : List Char) : Option (List Char) :=
  scanDelimYear '(' ')' s

/-- First occurrence of `\.(\d{4})\.`. -/
def scanDotYear (s : List Char) : Option (List Char) :=
  scanDelimYear '.' '.' s

/-- The `resolutions` set of `extract_folder_year`; note that `'480'` and
`'720'` are three-character strings. -/
def resolutionsSet : List String :=
  ["1080", "480", "720", "2160"]

/-- `extract_folder_year`: a parenthesized 4-digit token not equal to a
resolution string, else a dot-delimited one under the same guard. -/
def extract_folder_year (folder : String) : Option Nat :=
  let first :=
    match scanParenYear folder.toList with
    | some yr => if resolutionsSet.contains (String.mk yr) then none else some yr
    | none => none
  match first with
  | some yr => some (digitsToNat yr)
  | none =>
    match scanDotYear folder.toList with
    | some yr =>
      if resolutionsSet.contains (String.mk yr) then none else some (digitsToNat yr)
    | none => none

/-! ## `extract_movie_name_and_year` (Scripts/library.py, lines 358-376) -/

/-- `re.match(r'^\d{1,2}\.\s+', filename)`. -/
def leadIndexTest (s : List Char) : Bool :=
  match s with
  | d1 :: rest =>
    isDigitChar d1 &&
      (match rest with
       | d2 :: '.' :: w :: _ => isDigitChar d2 && isSpaceChar w
       | '.' :: w :: _ => isSpaceChar w
       | _ => false)
  | [] => false

/-- `re.sub(r'^\d{1,2}\.\s*', '', filename)`, applied when the test holds. -/
def stripLeadIndex (s : List Char) : List Char :=
  if leadIndexTest s then
    match s with
    | d1 :: d2 :: '.' :: rest =>
      if isDigitChar d1 && isDigitChar d2 then rest.dropWhile isSpaceChar
      else
        match d2 :: '.' :: rest with
        | '.' :: r2 => r2.dropWhile isSpaceChar
        | r2 => r2
    | _ :: '.' :: rest => rest.dropWhile isSpaceChar
    | r => r
  else s

/-- `\d{4}` at the head of the string. -/
def plainYearAt (s : List Char) : Option (List Char) :=
  match s with
  | d1 :: d2 :: d3 :: d4 :: _ =>
    if isDigitChar d1 && isDigitChar d2 && isDigitChar d3 && isDigitChar d4 then
      some [d1, d2, d3, d4]
    else none
  | _ => none

/-- `re.search(r'(.+?)\s*<year-pattern>', s)`: the lazy group takes the
shortest non-empty prefix after which optional whitespace reaches the year
pattern.  Returns (group 1, year digits). -/
def lazySplitAux (cond : List Char → Option (List Char)) :
    List Char → List Char → Option (List Char × List Char)
  | acc, s =>
    match cond (s.dropWhile isSpaceChar) with
    | some yr => some (acc.reverse, yr)
    | none =>
      match s with
      | [] => none
      | c :: cs => lazySplitAux cond (c :: acc) cs

def lazySplit (cond : List Char → Option (List Char)) :
    List Char → Option (List Char × List Char)
  | [] => none
  | c :: cs => lazySplitAux cond [c] cs

/-- `extract_movie_name_and_year`: optional leading "NN. " removal, then the
bracket-year, paren-year and bare-year patterns in order; the name is the
lazy prefix with `.`/`-` mapped to spaces and brackets removed. -/
def extract_movie_name_and_year (filename : String) : Option String × Option String :=
  let f := stripLeadIndex filename.toList
  let r :=
    match lazySplit (delimYearAt '[' ']') f with
    | some x => some x
    | none =>
      match lazySplit (delimYearAt '(' ')') f with
      | some x => some x
      | none => lazySplit plainYearAt f
  match r with
  | some (namepre, yr) =>
    let n1 := stripL (namepre.map (fun c => if c == '.' || c == '-' then ' ' else c))
    let n2 := stripL (n1.filter (fun c => !(c == '[' || c == ']')))
    (some (String.mk n2), some (String.mk yr))
  | none => (none, none)

/-! ## `standardize_title` (Scripts/library.py, lines 473-499) -/

/-- The replacement table of `standardize_title`; characters matched by the
substitution class but absent from the table map to themselves. -/
def leetReplacement (c : Char) : List Char :=
  if c == '0' then ['o'] else if c == '1' then ['i'] else if c == '4' then ['a']
  else if c == '5' then ['s'] else if c == '7' then ['t'] else if c == '9' then ['g']
  else if c == '@' then ['a'] else if c == '#' then ['h'] else if c == '$' then ['s']
  else if c == '%' then ['p'] else if c == '&' then ['a', 'n', 'd']
  else if c == '*' then ['x'] else if c == '3' then ['e'] else [c]

/-- The substitution class `[0-9@#$%&*3]`. -/
def leetSubClass (c : Char) : Bool :=
  isDigitChar c || c == '@' || c == '#' || c == '$' || c == '%' || c == '&' || c == '*'

/-- The affected-word test class `[014579@#$%&*3]` (note: no 2, 6 or 8). -/
def leetAffectedClass (c : Char) : Bool :=
  c == '0' || c == '1' || c == '4' || c == '5' || c == '7' || c == '9' ||
  c == '@' || c == '#' || c == '$' || c == '%' || c == '&' || c == '*' || c == '3'

/-- `re.findall(r'\b\w+\b', s)`: the maximal word-character runs. -/
def wordRunsAux : List Char → List Char → List (List Char)
  | acc, [] => if acc.isEmpty then [] else [acc.reverse]
  | acc, c :: cs =>
    if isWordChar c then wordRunsAux (c :: acc) cs
    else if acc.isEmpty then wordRunsAux [] cs
    else acc.reverse :: wordRunsAux [] cs

def wordRuns (s : List Char) : List (List Char) :=
  wordRunsAux [] s

/-- `standardize_title`: leet-substitute only when more than 4 words contain
affected characters; always collapse whitespace. -/
def standardize_title (title : String) : String :=
  let affected := (wordRuns title.toList).countP (fun w => w.any leetAffectedClass)
  let st :=
    if 4 < affected then
      (title.toList.map (fun c => if leetSubClass c then leetReplacement c else [c])).flatten
    else title.toList
  String.mk (collapseStripL st)

/-! ## `extract_resolution_from_filename` (Scripts/library.py, lines 378-387) -/

/-- The resolution alternation `(4K|2160p|1080p|720p|1080|2160|480p)`,
tried in order at each position. -/
def resAlternatives : List String :=
  ["4K", "2160p", "1080p", "720p", "1080", "2160", "480p"]

/-- Leftmost case-insensitive match of an ordered alternation of literals;
returns the alternative that matched. -/
def scanFirstAlt (alts : List (List Char)) : List Char → Option (List Char)
  | [] => alts.find? (fun a => (matchPrefixCI a []).isSome)
  | c :: cs =>
    match alts.find? (fun a => (matchPrefixCI a (c :: cs)).isSome) with
    | some a => some a
    | none => scanFirstAlt alts cs

/-- `extract_resolution_from_filename`: lowercased resolution token, with
`Remux` appended when the filename contains a remux marker. -/
def extract_resolution_from_filename (f : String) : Option String :=
  match scanFirstAlt (resAlternatives.map String.toList) f.toList with
  | some a =>
    let base := String.mk (a.map lowerChar)
    if strInCIL ['R', 'e', 'm', 'u', 'x'] f.toList then some (base ++ "Remux")
    else some base
  | none => none

/-! ## `check_existing_variations` (Scripts/library.py, lines 418-445)

The destination walk is modelled as the flat list of directory names it
yields, in walk order. -/

/-- Python truthiness of the year argument (`not year`): `None` and `0` are
falsy. -/
def pyFalsyYear : Option Nat → Bool
  | none => true
  | some n => n == 0

/-- The exact-match test of the walk loop: normalized equality plus
`d_year == year or not year or not d_year`. -/
def exactPred (name : String) (year : Option Nat) (d : String) : Bool :=
  let nq := normalize_query name
  let nd := normalize_query d
  let dy := extract_year d
  nd == nq && (dy == year || pyFalsyYear year || pyFalsyYear dy)

/-- The partial-match test: one normalized name contains the other and the
normalized lengths differ by less than 5. -/
def partialPred (name : String) (d : String) : Bool :=
  let nq := normalize_query name
  let nd := normalize_query d
  (strIn nq nd || strIn nd nq) && Nat.dist nq.length nd.length < 5

/-- The Python sort key `(len(x[0]), x[1] != year)` of the partial-match
selection, with `False < True` encoded as `0 < 1`. -/
def variationKey (year : Option Nat) (d : String) : Nat × Nat :=
  (d.length, if extract_year d = year then 0 else 1)

/-- Lexicographic comparison of Python tuples `(int, bool)`. -/
def keyLt (a b : Nat × Nat) : Bool :=
  a.1 < b.1 || (a.1 == b.1 && a.2 < b.2)

/-- `min(iterable, key=...)`: the first element attaining the minimal key. -/
def pickMin (key : String → Nat × Nat) (p : String) (ps : List String) : String :=
  ps.foldl (fun best d => if keyLt (key d) (key best) then d else best) p

/-- `check_existing_variations`: first exact match if any, else the partial
match minimizing `(len, year-mismatch)`, else `None`. -/
def check_existing_variations (name : String) (year : Option Nat)
    (dirs : List String) : Option String :=
  match dirs.find? (exactPred name year) with
  | some d => some d
  | none =>
    match dirs.filter (partialPred name) with
    | [] => none
    | p :: ps => some (pickMin (variationKey year) p ps)

/-! ## Filesystem model and the symlink materializer
(Scripts/library.py, `process_file` lines 812-833)

The destination filesystem is an association list from paths to entries;
the first binding for a path is current.  `copytree` for a directory
source is modelled as a `dir` entry at the destination. -/

inductive FsEntry where
  | slink (target : String)
  | file
  | dir
  | absent
  deriving DecidableEq, Repr

abbrev FS := List (String × FsEntry)

def entryAt (fs : FS) (p : String) : FsEntry :=
  match fs.lookup p with
  | some e => e
  | none => .absent

def fsSet (fs : FS) (p : String) (e : FsEntry) : FS :=
  (p, e) :: fs

/-- `os.path.dirname` for the relative slash-joined paths this pipeline
builds (everything before the last '/'; empty when there is no '/'). -/
def dirnameStr (p : String) : String :=
  let rev := p.toList.reverse
  let afterSlash := rev.dropWhile (fun c => c ≠ '/')
  match afterSlash with
  | [] => ""
  | _ :: rest => String.mk rest.reverse

inductive Outcome where
  | Created
  | AlreadyLinked
  | Replaced
  | Skipped
  deriving DecidableEq, Repr

/-- `os.makedirs(os.path.dirname(dest_file), exist_ok=True)`. -/
def mkdirsParent (fs : FS) (destFile : String) : FS :=
  let parent := dirnameStr destFile
  if entryAt fs parent = .absent then fsSet fs parent .dir else fs

/-- The per-item materializer (lines 812-833 of `process_file`):
create the parent directory, then
- destination is a symlink to the same source: no-op (`AlreadyLinked`);
- destination is a symlink elsewhere: remove it and recreate (`Replaced`);
- destination is occupied by a non-symlink: leave it (`Skipped`);
- otherwise create the symlink, or a directory copy for a directory
  source (`Created`). -/
def materialize (fs : FS) (srcFile destFile : String) (srcIsDir : Bool) :
    Outcome × FS :=
  let fs1 := mkdirsParent fs destFile
  match entryAt fs1 destFile with
  | .slink t =>
    if t = srcFile then (.AlreadyLinked, fs1)
    else
      let fs2 := fsSet fs1 destFile .absent
      (.Replaced, fsSet fs2 destFile (if srcIsDir then .dir else .slink srcFile))
  | .file => (.Skipped, fs1)
  | .dir => (.Skipped, fs1)
  | .absent => (.Created, fsSet fs1 destFile (if srcIsDir then .dir else .slink srcFile))

/-- Python exceptions that the embedded pipeline can raise. -/
inductive PyErr where
  | typeError
  | nameError
  | attrError
  deriving DecidableEq, Repr

/-! ## Small regex helpers used by `process_show` -/

/-- `re.search(r'S(\d{2})E\d{2}', s, re.IGNORECASE)`, returning group 1. -/
def searchSeasonOfSE : List Char → Option (List Char)
  | s0 :: a :: b :: e0 :: x :: y :: rest =>
    if lowerChar s0 == 's' && isDigitChar a && isDigitChar b &&
        lowerChar e0 == 'e' && isDigitChar x && isDigitChar y then
      some [a, b]
    else searchSeasonOfSE (a :: b :: e0 :: x :: y :: rest)
  | _ => none

/-- `re.search(r'([0-9]+)', s)`: the first maximal digit run. -/
def firstDigitRun : List Char → Option (List Char)
  | [] => none
  | c :: cs =>
    if isDigitChar c then some (c :: cs.takeWhile isDigitChar)
    else firstDigitRun cs

/-- `re.search(r'S(\d{2})', s, re.IGNORECASE)`. -/
def searchSxx : List Char → Option (List Char)
  | s0 :: a :: b :: rest =>
    if lowerChar s0 == 's' && isDigitChar a && isDigitChar b then some [a, b]
    else searchSxx (a :: b :: rest)
  | _ => none

/-- The `Season\s*(\d+)` alternative tried at one position (IGNORECASE). -/
def seasonWordAt (s : List Char) : Option (List Char) :=
  match matchPrefixCI ['s', 'e', 'a', 's', 'o', 'n'] s with
  | some rest =>
    let r2 := rest.dropWhile isSpaceChar
    let ds := r2.takeWhile isDigitChar
    if ds.isEmpty then none else some ds
  | none => none

/-- `re.search(r'S(\d{2})|Season\s*(\d+)', s, re.IGNORECASE)`: at each
position, the `S\d{2}` alternative is tried before `Season\s*\d+`;
returns the digit group that matched. -/
def searchSeasonMarker : List Char → Option (List Char)
  | [] => none
  | c :: cs =>
    (match c :: cs with
     | s0 :: a :: b :: _ =>
       if lowerChar s0 == 's' && isDigitChar a && isDigitChar b then some [a, b]
       else none
     | _ => none)
    |>.orElse (fun _ => seasonWordAt (c :: cs))
    |>.orElse (fun _ => searchSeasonMarker cs)

/-- The leftmost position where `\s*(S\d{2}.*|Season \d+)` matches (case
sensitive), as used by `re.sub(r'\s*(S\d{2}.*|Season \d+).*', '', name)`:
everything from that position on is removed. -/
def seasonCutTokenAt (r : List Char) : Bool :=
  (match r with
   | 'S' :: a :: b :: _ => isDigitChar a && isDigitChar b
   | _ => false) ||
  (match matchPrefixExact ['S', 'e', 'a', 's', 'o', 'n', ' '] r,
         r.drop 7 with
   | true, d :: _ => isDigitChar d
   | _, _ => false)

def stripShowSuffix : List Char → List Char
  | [] => []
  | c :: cs =>
    if seasonCutTokenAt ((c :: cs).dropWhile isSpaceChar) &&
        (isSpaceChar c || seasonCutTokenAt (c :: cs)) then []
    else c :: stripShowSuffix cs

/-- `re.sub(r'\s+$|_+$|-+$|(\()$', '', s)`: the leftmost alternative that
can match through to the end of the string (a trailing whitespace run,
else a trailing underscore run, else a trailing hyphen run, else a final
'('). -/
def stripTrailJunk (s : List Char) : List Char :=
  let r := s.reverse
  let ws := r.takeWhile isSpaceChar
  if 0 < ws.length then (r.drop ws.length).reverse
  else
    let us := r.takeWhile (fun c => c == '_')
    if 0 < us.length then (r.drop us.length).reverse
    else
      let hs := r.takeWhile (fun c => c == '-')
      if 0 < hs.length then (r.drop hs.length).reverse
      else
        match r with
        | '(' :: rest => rest.reverse
        | _ => s

/-- Python `a or b` over optional years (`0` is falsy). -/
def pyOrYear (a b : Option Nat) : Option Nat :=
  match a with
  | some n => if n == 0 then b else some n
  | none => b

/-- `re.sub(r'\(\d{4}\)$', '', s)`. -/
def dropParenYearSuffix (s : List Char) : List Char :=
  match s.reverse with
  | ')' :: d4 :: d3 :: d2 :: d1 :: '(' :: rest =>
    if isDigitChar d1 && isDigitChar d2 && isDigitChar d3 && isDigitChar d4 then
      rest.reverse
    else s
  | _ => s

/-- `re.sub(r'\d{4}$', '', s)`. -/
def dropPlainYearSuffix (s : List Char) : List Char :=
  match s.reverse with
  | d4 :: d3 :: d2 :: d1 :: rest =>
    if isDigitChar d1 && isDigitChar d2 && isDigitChar d3 && isDigitChar d4 then
      rest.reverse
    else s
  | _ => s

/-- `re.sub(r' \{tmdb-\d+\}$', '', s)`: drop a trailing " \x7btmdb-<id>\x7d"
tag. -/
def dropTmdbTagSuffix (s : List Char) : List Char :=
  match s.reverse with
  | '\x7d' :: rest =>
    let ds := rest.takeWhile isDigitChar
    if !ds.isEmpty &&
        matchPrefixExact ['-', 'b', 'd', 'm', 't', '\x7b', ' '] (rest.drop ds.length) then
      ((rest.drop ds.length).drop 7).reverse
    else s
  | _ => s

/-- `re.search(r'\{tmdb-(\d+)\}$', s)`: the trailing tag's id digits. -/
def tmdbTagId (s : List Char) : Option (List Char) :=
  match s.reverse with
  | '\x7d' :: rest =>
    let ds := rest.takeWhile isDigitChar
    if !ds.isEmpty &&
        matchPrefixExact ['-', 'b', 'd', 'm', 't', '\x7b'] (rest.drop ds.length) then
      some ds.reverse
    else none
  | _ => none

/-- `re.search(r'E(\d+)', s)` (case sensitive), returning group 1. -/
def searchEDigits : List Char → Option (List Char)
  | [] => none
  | c :: cs =>
    if c == 'E' then
      let ds := cs.takeWhile isDigitChar
      if ds.isEmpty then searchEDigits cs else some ds
    else searchEDigits cs

/-- `re.sub(r'-{2,}', '-', s)`: collapse hyphen runs. -/
def collapseDashesAux : Bool → List Char → List Char
  | _, [] => []
  | prev, c :: cs =>
    if c == '-' then
      if prev then collapseDashesAux true cs
      else '-' :: collapseDashesAux true cs
    else c :: collapseDashesAux false cs

/-- `str.strip('-')`. -/
def stripDashes (s : List Char) : List Char :=
  ((s.dropWhile (fun c => c == '-')).reverse.dropWhile (fun c => c == '-')).reverse

/-! ## `process_show` (Scripts/library.py, lines 501-672)

External collaborators are injected: `isdir` is the destination-tree
directory test, `tvLookup` is `search_tv_show`, `epName` is
`get_episode_name`, `apiKey` is whether `get_api_key()` returned a key and
`skipExtras` is `is_skip_extras_folder_enabled()`. -/

structure ShowEnv where
  isdir : String → Bool
  apiKey : Bool
  tvLookup : String → Option Nat → Bool → String
  epName : Nat → Nat → Nat → Option String
  skipExtras : Bool

/-- Anchored `re.match(r'S\d{2}[eE]\d{2}', s)` (case sensitive `S`). -/
def matchSxxEyy (s : List Char) : Bool :=
  match s with
  | 'S' :: a :: b :: e :: x :: y :: _ =>
    isDigitChar a && isDigitChar b && (e == 'e' || e == 'E') &&
    isDigitChar x && isDigitChar y
  | _ => false

/-- Anchored `re.match(r'[0-9]+x[0-9]+', s)` (case sensitive `x`). -/
def matchNxM (s : List Char) : Bool :=
  let ds := s.takeWhile isDigitChar
  !ds.isEmpty &&
    (match s.drop ds.length with
     | 'x' :: r2 => !(r2.takeWhile isDigitChar).isEmpty
     | _ => false)

/-- Anchored `re.match(r'S\d{2}[0-9]+', s)` (case sensitive `S`). -/
def matchSxxNN (s : List Char) : Bool :=
  match s with
  | 'S' :: a :: b :: c :: _ => isDigitChar a && isDigitChar b && isDigitChar c
  | _ => false

/-- Anchored `re.match(r'[0-9]+e[0-9]+', s)` (case sensitive `e`). -/
def matchNNeMM (s : List Char) : Bool :=
  let ds := s.takeWhile isDigitChar
  !ds.isEmpty &&
    (match s.drop ds.length with
     | 'e' :: r2 => !(r2.takeWhile isDigitChar).isEmpty
     | _ => false)

/-- Anchored `re.match(r'Ep\.?\s*\d+', s, re.IGNORECASE)`; returns the digit
group of the matching `re.search(r'Ep\.?\s*(\d+)', ...)`. -/
def matchEpNum (s : List Char) : Option (List Char) :=
  match s with
  | e0 :: p0 :: rest =>
    if lowerChar e0 == 'e' && lowerChar p0 == 'p' then
      let r1 := match rest with
        | '.' :: r => r
        | r => r
      let r2 := r1.dropWhile isSpaceChar
      let ds := r2.takeWhile isDigitChar
      if ds.isEmpty then none else some ds
    else none
  | _ => none

/-- Python `s.split('x')[1]`: the segment after the first 'x'. -/
def afterFirstX (s : List Char) : List Char :=
  ((s.dropWhile (fun c => c ≠ 'x')).drop 1).takeWhile (fun c => c ≠ 'x')

/-- The episode-identifier analysis of `process_show` (lines 511-547):
returns (show name, season-number digits, rewritten episode identifier,
create-season-folder, create-extras-folder). -/
def analyzeEpisode (cleanFolderName g1 g2 : String) (parentFolderName : String) :
    String × String × String × Bool × Bool :=
  let idL := g2.toList
  let (showName, season0, ident, createSeason, createExtras) :=
    if matchSxxEyy idL then
      (String.mk (stripL ((stripShowSuffix cleanFolderName.toList).map
          (fun c => if c == '-' || c == '.' then ' ' else c))),
       "01", g2, true, false)
    else if matchNxM idL then
      (String.mk (stripL (g1.toList.map (fun c => if c == '.' then ' ' else c))),
       String.mk (idL.takeWhile isDigitChar),
       "S" ++ String.mk (idL.takeWhile isDigitChar) ++ "E" ++ String.mk (afterFirstX idL),
       true, false)
    else if matchSxxNN idL then
      (String.mk (stripL (g1.toList.map (fun c => if c == '.' then ' ' else c))),
       "01",
       "S" ++ String.mk ((idL.drop 1).take 2) ++ "E" ++ String.mk (idL.drop 3),
       true, false)
    else if matchNNeMM idL then
      (String.mk (stripL (g1.toList.map (fun c => if c == '.' then ' ' else c))),
       "01",
       "S" ++ String.mk (idL.take 2) ++ "E" ++ String.mk (idL.drop 2),
       true, false)
    else
      match matchEpNum idL with
      | some epDigits =>
        let seasonDigits := match searchSxx parentFolderName.toList with
          | some ds => String.mk ds
          | none => "01"
        (String.mk (stripL (g1.toList.map (fun c => if c == '.' then ' ' else c))),
         seasonDigits,
         "S" ++ seasonDigits ++ "E" ++ String.mk epDigits,
         true, false)
      | none =>
        (String.mk (stripL (g1.toList.map (fun c => if c == '.' then ' ' else c))),
         "01", "S01E01", false, true)
  -- lines 541-547: re-extract the season number from the identifier
  let seasonDigits := match searchSeasonOfSE ident.toList with
    | some ds => String.mk ds
    | none =>
      match firstDigitRun ident.toList with
      | some ds => String.mk ds
      | none => "01"
  let _ := season0
  (showName, seasonDigits, ident, createSeason, createExtras)

/-- The naming outcome of `process_show` lines 502-592: the cleaned show
name, the season digits, the (rewritten) episode identifier, the
extras flag, the TMDb lookup result and the final show folder name. -/
structure ShowNaming where
  showName : String
  seasonDigits : String
  episodeIdentifier : String
  createExtras : Bool
  properShowName : Option String
  showFolder : String
  deriving DecidableEq, Repr

/-- Lines 502-592 of `process_show`. -/
def showNaming (env : ShowEnv) (tmdbFolderId autoSel : Bool)
    (root : String) (epMatch : Option (String × String)) : ShowNaming :=
  let parentFolderName := basenameStr root
  let cleanFolderName := (clean_query parentFolderName).1
  let (showName0, seasonDigits, episodeIdentifier, _createSeason, createExtras) :=
    match epMatch with
    | some (g1, g2) => analyzeEpisode cleanFolderName g1 g2 parentFolderName
    | none =>
      let sd := match searchSeasonMarker parentFolderName.toList with
        | some ds => String.mk ds
        | none => "01"
      (cleanFolderName, sd, "", false, true)
  -- lines 562-564: invalid show names fall back to the folder name
  let showName :=
    if showName0 == "" || lowerStr showName0 == "invalid name" ||
        lowerStr showName0 == "unknown" then
      String.mk (stripL ((stripTrailJunk cleanFolderName.toList).map
        (fun c => if c == '.' then ' ' else c)))
    else showName0
  let showFolder0 := String.mk (rstripL (stripTrailJunk showName.toList))
  let year := pyOrYear (extract_folder_year parentFolderName)
    (extract_year showFolder0)
  let showFolder1 :=
    match year with
    | some _ =>
      String.mk (stripL (dropPlainYearSuffix
        (stripL (dropParenYearSuffix showFolder0.toList))))
    | none => showFolder0
  let (properShowName, showFolder2) :=
    if env.apiKey then
      let proper0 := env.tvLookup showFolder1 year autoSel
      let proper := if strIn "TMDb API error" proper0 then showFolder1 else proper0
      (some proper,
       if tmdbFolderId then proper else String.mk (dropTmdbTagSuffix proper.toList))
    else (none, showFolder1)
  let showFolder3 := String.mk (showFolder2.toList.filter (fun c => c ≠ '/'))
  let showFolder :=
    match year with
    | some y =>
      if strIn ("(" ++ toString y ++ ")") showFolder3 then showFolder3
      else showFolder3 ++ " (" ++ toString y ++ ")"
    | none => showFolder3
  { showName := showName, seasonDigits := seasonDigits,
    episodeIdentifier := episodeIdentifier, createExtras := createExtras,
    properShowName := properShowName, showFolder := showFolder }

/-- `find_show_folder_in_resolution_folders` (lines 620-625). -/
def find_show_folder_in_resolution_folders (isdir : String → Bool)
    (destDir showFolder : String) : Option String :=
  ["UltraHD", "FullHD", "SDClassics", "Retro480p", "RetroDVD",
    "Shows"].findSome?
    (fun rf =>
      let p := pjoin (pjoin (pjoin (pjoin destDir "CineSync") "Shows") rf)
        showFolder
      if isdir p then some p else none)

/-- `process_show`.  Returns `.ok none` for the skipped-extras early
return (Python `return` with no value), `.ok (some destFile)` otherwise;
`.error` models the `NameError`/`AttributeError` paths reachable when
renaming without an API result. -/
def process_show (env : ShowEnv) (tmdbFolderId renameEnabled autoSel : Bool)
    (root file destDir : String) (epMatch : Option (String × String)) :
    Except PyErr (Option String) :=
  let nm := showNaming env tmdbFolderId autoSel root epMatch
  let showName := nm.showName
  let seasonDigits := nm.seasonDigits
  let episodeIdentifier := nm.episodeIdentifier
  let createExtras := nm.createExtras
  let properShowName := nm.properShowName
  let showFolder := nm.showFolder
  let seasonFolder := "Season " ++ toString (digitsToNat seasonDigits.toList)
  let resolution := extract_resolution_from_filename file
  let resolutionFolder :=
    if strIn "remux" (lowerStr file) then
      if strIn "2160" file || strIn "4k" (lowerStr file) then "UltraHDRemuxShows"
      else if strIn "1080" file then "1080pRemuxLibrary"
      else "RemuxShows"
    else
      match resolution with
      | some "2160p" => "UltraHD"
      | some "4k" => "UltraHD"
      | some "1080p" => "FullHD"
      | some "720p" => "SDClassics"
      | some "480p" => "Retro480p"
      | some "DVD" => "RetroDVD"
      | _ => "Shows"
  let showsRoot := pjoin (pjoin destDir "CineSync") "Shows"
  let baseDestPath := pjoin (pjoin showsRoot resolutionFolder) showFolder
  let seasonDestPath := pjoin baseDestPath seasonFolder
  let extrasBaseDestPath := pjoin (pjoin showsRoot "Extras") showFolder
  let extrasDestPath0 := pjoin extrasBaseDestPath "Extras"
  let existing := find_show_folder_in_resolution_folders env.isdir destDir showFolder
  let destBranch : Except PyErr (Option String) :=
    match existing with
    | some exPath =>
      if env.skipExtras && createExtras then .ok none
      else .ok (some (pjoin (pjoin exPath "Extras") file))
    | none =>
      if createExtras && !env.skipExtras then .ok (some (pjoin extrasDestPath0 file))
      else .ok (some (pjoin baseDestPath file))
  match destBranch with
  | .ok none => .ok none
  | .error e => .error e
  | .ok (some destFile0) =>
    match epMatch with
    | none => .ok (some destFile0)
    | some _ =>
      if renameEnabled then
        match properShowName with
        | none => .error .nameError  -- proper_show_name unbound without an API key
        | some proper =>
          match tmdbTagId proper.toList with
          | some idDigits =>
            match searchEDigits episodeIdentifier.toList with
            | none => .error .attrError  -- .group(1) on a failed search
            | some epDigits =>
              let newName :=
                if String.mk epDigits == "" then
                  showName ++ " - " ++ episodeIdentifier ++ splitextExt file
                else
                  match env.epName (digitsToNat idDigits) (digitsToNat seasonDigits.toList)
                      (digitsToNat epDigits) with
                  | some epn =>
                    showName ++ " - S" ++ seasonDigits ++ "E" ++ String.mk epDigits ++
                      " - " ++ epn ++ splitextExt file
                  | none =>
                    showName ++ " - S" ++ seasonDigits ++ "E" ++ String.mk epDigits ++
                      splitextExt file
              let newName2 := String.mk (stripDashes (collapseDashesAux false newName.toList))
              .ok (some (pjoin seasonDestPath newName2))
          | none =>
            let newName := showName ++ " - " ++ episodeIdentifier ++ splitextExt file
            let newName2 := String.mk (stripDashes (collapseDashesAux false newName.toList))
            .ok (some (pjoin seasonDestPath newName2))
      else .ok (some (pjoin seasonDestPath file))

/-! ## `process_movie` (Scripts/library.py, lines 674-788) -/

/-- Result of the library's `search_movie` as observed by `process_movie`:
either a dict (`found`) or anything else (the query string or `None`). -/
inductive LibMovieResult where
  | found (id : Nat) (title : String) (releaseDate : String)
  | other
  deriving DecidableEq, Repr

structure MovieEnv where
  apiKey : Bool
  collectionEnabled : Bool
  movieLookup : String → Option String → Bool → LibMovieResult
  collectionOf : Nat → Option (String × Nat)
  walkDirs : List String

/-- Python `==` between `extract_year`'s int and `process_movie`'s string
year: an `int` never equals a `str`, and `None == None` is `True`. -/
def pyYearEqIntStr (a : Option Nat) (b : Option String) : Bool :=
  a.isNone && b.isNone

/-- Python truthiness of the string year. -/
def pyFalsyYearS : Option String → Bool
  | none => true
  | some s => s == ""

/-- `check_existing_variations` as called from `process_movie`, where the
`year` argument is the string captured by `extract_movie_name_and_year`
while each directory's year is an int from `extract_year`; the comparisons
`d_year == year` and `x[1] != year` are int-vs-str comparisons. -/
def check_existing_variations_strYear (name : String) (year : Option String)
    (dirs : List String) : Option String :=
  let nq := normalize_query name
  let isExact := fun d =>
    let nd := normalize_query d
    let dy := extract_year d
    nd == nq && (pyYearEqIntStr dy year || pyFalsyYearS year || pyFalsyYear dy)
  let isPartial := fun d =>
    let nd := normalize_query d
    (strIn nq nd || strIn nd nq) && Nat.dist nq.length nd.length < 5
  let key := fun d =>
    (d.length, if pyYearEqIntStr (extract_year d) year then 0 else 1)
  match dirs.find? isExact with
  | some d => some d
  | none =>
    match dirs.filter isPartial with
    | [] => none
    | p :: ps => some (pickMin key p ps)

/-- `f"{result.get('release_date', '').split('-')[0]}"`. -/
def relYearPart (rel : String) : String :=
  String.mk (rel.toList.takeWhile (fun c => c ≠ '-'))

/-- `process_movie`.  Returns the destination file, or `none` when no movie
name could be extracted (Python's bare `return`). -/
def process_movie (env : MovieEnv) (tmdbFolderId renameEnabled autoSel : Bool)
    (root file destDir : String) : Option String :=
  let parentFolderName := basenameStr root
  match extract_movie_name_and_year parentFolderName with
  | (some movieName0, someYear) =>
    if movieName0 == "" then none
    else
      let movieName := standardize_title movieName0
      let yearStr := match someYear with
        | some y => y
        | none => "None"
      let (collectionInfo, properMovieName) :=
        if env.apiKey && env.collectionEnabled then
          match env.movieLookup movieName someYear autoSel with
          | .found id title rel =>
            (env.collectionOf id,
             title ++ " (" ++ relYearPart rel ++ ") \x7btmdb-" ++ toString id ++ "\x7d")
          | .other => (none, movieName ++ " (" ++ yearStr ++ ")")
        else if env.apiKey then
          match env.movieLookup movieName someYear autoSel with
          | .found id title rel =>
            (none,
             title ++ " (" ++ relYearPart rel ++ ") \x7btmdb-" ++ toString id ++ "\x7d")
          | .other => (none, movieName ++ " (" ++ yearStr ++ ")")
        else (none, movieName ++ " (" ++ yearStr ++ ")")
      let (resolutionFolderC, collectionFolder0, movieFolder0) :=
        match collectionInfo with
        | some (cname, cid) =>
          (some "Movie Collections",
           some (cname ++ " \x7btmdb-" ++ toString cid ++ "\x7d"),
           properMovieName)
        | none =>
          let mf := if tmdbFolderId then properMovieName
            else String.mk (dropTmdbTagSuffix properMovieName.toList)
          (none, none, String.mk (mf.toList.filter (fun c => c ≠ '/')))
      let movieFolder1 :=
        match someYear with
        | some y =>
          if y ≠ "" && !strIn ("(" ++ y ++ ")") movieFolder0 then
            movieFolder0 ++ " (" ++ y ++ ")"
          else movieFolder0
        | none => movieFolder0
      let ev1 := check_existing_variations_strYear movieFolder1 someYear env.walkDirs
      let movieFolder2 := match ev1 with
        | some v => v
        | none => movieFolder1
      -- lines 739-766 run only when the collection branch did not set
      -- `resolution_folder`
      let (resolutionFolder, evFinal) :=
        match resolutionFolderC with
        | some rf => (rf, ev1)
        | none =>
          let resolution := extract_resolution_from_filename file
          let rf :=
            if strIn "remux" (lowerStr file) then
              if strIn "2160" file || strIn "4k" (lowerStr file) then "4KRemux"
              else if strIn "1080" file then "1080pRemux"
              else "MoviesRemux"
            else
              match resolution with
              | some "2160p" => "UltraHD"
              | some "4k" => "UltraHD"
              | some "1080p" => "FullHD"
              | some "720p" => "SDMovies"
              | some "480p" => "Retro480p"
              | some "DVD" => "DVDClassics"
              | _ => "Movies"
          (rf, check_existing_variations_strYear movieFolder2 someYear env.walkDirs)
      let (collectionFolder, movieFolder) :=
        match evFinal with
        | some v =>
          match collectionInfo with
          | some _ => (some v, movieFolder2)
          | none => (collectionFolder0, v)
        | none => (collectionFolder0, movieFolder2)
      let moviesRoot := pjoin (pjoin destDir "CineSync") "Movies"
      let destPath :=
        match collectionInfo, collectionFolder with
        | some _, some cf => pjoin (pjoin (pjoin moviesRoot resolutionFolder) cf) movieFolder
        | _, _ => pjoin (pjoin moviesRoot resolutionFolder) movieFolder
      let newName :=
        if renameEnabled then basenameStr properMovieName ++ splitextExt file
        else file
      some (pjoin destPath newName)
  | (_, _) => none

/-! ## `process_file` and `create_symlinks` (Scripts/library.py, 790-860) -/

/-- One alternative of the episode regex of `process_file` (line 804),
tried at a fixed position under `re.IGNORECASE`; returns the matched text.
The distinct-case alternatives (`S\d{2}E\d{2}` vs `S\d{2}e\d{2}`,
`ep`/`Ep`/`EP`) coincide under the flag. -/
def epAltAt (s : List Char) : Option (List Char) :=
  (match s with
   | s0 :: a :: b :: e0 :: x :: y :: _ =>
     if lowerChar s0 == 's' && isDigitChar a && isDigitChar b &&
         lowerChar e0 == 'e' && isDigitChar x && isDigitChar y then
       some [s0, a, b, e0, x, y]
     else none
   | _ => none)
  |>.orElse (fun _ =>
    let d1 := s.takeWhile isDigitChar
    if d1.isEmpty then none
    else
      match s.drop d1.length with
      | x0 :: rest =>
        if lowerChar x0 == 'x' then
          let d2 := rest.takeWhile isDigitChar
          if d2.isEmpty then none else some (d1 ++ x0 :: d2)
        else none
      | [] => none)
  |>.orElse (fun _ =>
    match s with
    | s0 :: a :: b :: rest =>
      if lowerChar s0 == 's' && isDigitChar a && isDigitChar b then
        let ds := rest.takeWhile isDigitChar
        if ds.isEmpty then none else some (s0 :: a :: b :: ds)
      else none
    | _ => none)
  |>.orElse (fun _ =>
    let d1 := s.takeWhile isDigitChar
    if d1.isEmpty then none
    else
      match s.drop d1.length with
      | e0 :: rest =>
        if lowerChar e0 == 'e' then
          let d2 := rest.takeWhile isDigitChar
          if d2.isEmpty then none else some (d1 ++ e0 :: d2)
        else none
      | [] => none)
  |>.orElse (fun _ =>
    match s with
    | e0 :: p0 :: rest =>
      if lowerChar e0 == 'e' && lowerChar p0 == 'p' then
        let (dot, r1) : List Char × List Char := match rest with
          | '.' :: r => (['.'], r)
          | r => ([], r)
        let sp := r1.takeWhile isSpaceChar
        let r2 := r1.drop sp.length
        let ds := r2.takeWhile isDigitChar
        if ds.isEmpty then none else some (e0 :: p0 :: (dot ++ sp ++ ds))
      else none
    | _ => none)

/-- `re.search(r'(.*?)(S\d{2}E\d{2}|...)', file, re.IGNORECASE)`: the lazy
group takes the shortest (possibly empty) prefix from which an alternative
matches; returns (group 1, group 2). -/
def episodeSearchAux : List Char → List Char → Option (List Char × List Char)
  | acc, s =>
    match epAltAt s with
    | some idText => some (acc.reverse, idText)
    | none =>
      match s with
      | [] => none
      | c :: cs => episodeSearchAux (c :: acc) cs

def episodeSearch (s : List Char) : Option (List Char × List Char) :=
  episodeSearchAux [] s

/-- `process_file`: route to `process_show`/`process_movie`, then
materialize.  A `none` destination makes `os.path.dirname(dest_file)`
raise `TypeError`. -/
def process_file (senv : ShowEnv) (menv : MovieEnv)
    (tmdbFolderId renameEnabled autoSel : Bool)
    (fs : FS) (destIndex : List String) (srcIsDir : Bool)
    (root file destDir : String) : Except PyErr (Option String × FS) :=
  let srcFile := pjoin root file
  let symlinkExists := destIndex.any (fun p =>
    match entryAt fs p with
    | .slink t => t == srcFile
    | _ => false)
  if symlinkExists then .ok (none, fs)
  else
    let isShowDir := ["season", "episode", "s01", "s02", "s03", "s04",
        "s05"].any (fun kw => strIn kw (lowerStr root))
    let epM := episodeSearch file.toList
    let destE : Except PyErr (Option String) :=
      if epM.isSome || isShowDir then
        process_show senv tmdbFolderId renameEnabled autoSel root file destDir
          (epM.map (fun p => (String.mk p.1, String.mk p.2)))
      else
        .ok (process_movie menv tmdbFolderId renameEnabled autoSel root file destDir)
    match destE with
    | .error e => .error e
    | .ok none => .error .typeError
    | .ok (some destFile) =>
      let (_, fs2) := materialize fs srcFile destFile srcIsDir
      .ok (some destFile, fs2)

/-- `create_symlinks`: one task per discovered (root, file) pair, all over
the same initial snapshot (the worker pool submits every task before
collecting any result), then `task.result()` in order — the first task
exception is re-raised, aborting the collection loop and the run. -/
def create_symlinks (senv : ShowEnv) (menv : MovieEnv)
    (tmdbFolderId renameEnabled autoSel : Bool)
    (fs : FS) (destIndex : List String) (destDir : String)
    (items : List (String × String)) :
    Except PyErr Unit × List (Except PyErr (Option String × FS)) :=
  let outcomes := items.map (fun it =>
    process_file senv menv tmdbFolderId renameEnabled autoSel fs destIndex
      false it.1 it.2 destDir)
  let runResult := outcomes.foldl
    (fun acc r =>
      match acc with
      | .error e => .error e
      | .ok _ =>
        match r with
        | .error e => .error e
        | .ok _ => .ok ())
    (.ok ())
  (runResult, outcomes)

/-! ## Resolver embeddings

Network transport is an oracle; `Transport.err` is a
`requests.exceptions.RequestException` raised by the call. -/

inductive Transport (α : Type) where
  | ok (value : α)
  | err
  deriving DecidableEq, Repr

def transportToList {α : Type} : Transport (List α) → List α
  | .ok l => l
  | .err => []

/-- A TV search result item as consumed by the resolvers. -/
structure TvShow where
  name : String
  firstAirDate : Option String
  id : Nat
  deriving DecidableEq, Repr

/-- `first_air_date.split('-')[0] if first_air_date else "Unknown Year"`. -/
def showYear (s : TvShow) : String :=
  match s.firstAirDate with
  | some d => if d == "" then "Unknown Year"
    else String.mk (d.toList.takeWhile (fun c => c ≠ '-'))
  | none => "Unknown Year"

/-- A movie search result item. -/
structure Movie where
  title : String
  releaseDate : Option String
  id : Nat
  deriving DecidableEq, Repr

def movieYear (m : Movie) : String :=
  match m.releaseDate with
  | some d => if d == "" then "Unknown Year"
    else String.mk (d.toList.takeWhile (fun c => c ≠ '-'))
  | none => "Unknown Year"

/-- The process-lifetime `_api_cache`, keyed by the original
`(query, year)` pair. -/
abbrev ApiCache := List ((String × Option Nat) × String)

def cacheInsert (c : ApiCache) (k : String × Option Nat) (v : String) : ApiCache :=
  (k, v) :: c

/-- Python truthiness of the optional year (`if year:`). -/
def pyYearTruthy : Option Nat → Bool
  | none => false
  | some n => n ≠ 0

/-- `str.isdigit()`. -/
def pyIsDigit (s : String) : Bool :=
  !s.isEmpty && s.toList.all isDigitChar

/-- The interactive choice `results[int(choice) - 1]` taken when
`choice.isdigit() and 1 <= int(choice) <= 3`; an out-of-range index (an
`IndexError` in Python) is modelled as no selection. -/
def chooseFrom {α : Type} (choice : String) (results : List α) : Option α :=
  if pyIsDigit choice && 1 ≤ digitsToNat choice.toList &&
      digitsToNat choice.toList ≤ 3 then
    results.get? (digitsToNat choice.toList - 1)
  else none

namespace Library

/-- `f"{show_name} ({show_year}) {{tmdb-{tmdb_id}}}"`. -/
def properName (s : TvShow) : String :=
  s.name ++ " (" ++ showYear s ++ ") \x7btmdb-" ++ toString s.id ++ "\x7d"

/-- The body of `search_tv_show` of Scripts/library.py (lines 79-139): a
single `search/tv` request with the year attached when present.  Returns
the resolved or pass-through name, the updated `_api_cache`, and the
network requests issued.  The `@lru_cache(maxsize=None)` decorator of
line 78 wraps this body; the decorated callable is
`search_tv_show_cached` below. -/
def search_tv_show (cache : ApiCache)
    (oracle : String → Option Nat → Transport (List TvShow))
    (apiKey : Bool) (choice : String)
    (query : String) (year : Option Nat) (autoSelect : Bool) :
    String × ApiCache × List (String × Option Nat) :=
  match cache.lookup (query, year) with
  | some v => (v, cache, [])
  | none =>
    if !apiKey then (query, cache, [])
    else
      match oracle query year with
      | .err => (query, cache, [(query, year)])  -- logged; no cache write
      | .ok results =>
        match results with
        | [] => (query, cacheInsert cache (query, year) query, [(query, year)])
        | r0 :: rest =>
          let chosen : Option TvShow :=
            if autoSelect then some r0
            else if rest.isEmpty then some r0
            else chooseFrom choice (r0 :: rest)
          match chosen with
          | some s =>
            (properName s, cacheInsert cache (query, year) (properName s),
             [(query, year)])
          | none => (query, cacheInsert cache (query, year) query, [(query, year)])

/-- The memo table of `@lru_cache(maxsize=None)` (line 78), keyed by the
full argument tuple `(query, year, auto_select)`. -/
abbrev LruCache := List ((String × Option Nat × Bool) × String)

/-- `search_tv_show` as actually callable: the body wrapped by
`@lru_cache(maxsize=None)`.  A hit on the full argument tuple returns
the memoized value without running the body (no request, no `_api_cache`
write); a miss runs the body and memoizes whatever it returns — also the
pass-through return of the exception path. -/
def search_tv_show_cached (lru : LruCache) (cache : ApiCache)
    (oracle : String → Option Nat → Transport (List TvShow))
    (apiKey : Bool) (choice : String)
    (query : String) (year : Option Nat) (autoSelect : Bool) :
    String × LruCache × ApiCache × List (String × Option Nat) :=
  match lru.lookup (query, year, autoSelect) with
  | some v => (v, lru, cache, [])
  | none =>
    match search_tv_show cache oracle apiKey choice query year autoSelect with
    | (r, cache2, reqs) => (r, ((query, year, autoSelect), r) :: lru, cache2, reqs)

end Library

namespace TmdbApi

/-- Missing-module collaborators of MediaHub/api/tmdb_api.py
(`utils.file_utils` is not part of the observed source): the resolvers are
parameterized over them.  `pair_query` stands for the string coercion that
happens when the tuple returned by `clean_query(file)` is passed as the
`query` parameter (line 94). -/
structure Helpers where
  extract_title : String → String
  remove_genre_names : String → String
  clean_query : String → String × Option Nat
  clean_query_file : Option String → String × Option Nat
  pair_query : String × Option Nat → String
  clean_query_movie : String → String

/-- The folder-id preference flags from the missing `config.config`. -/
structure IdFlags where
  imdb : Bool
  tvdb : Bool
  tmdb : Bool
  deriving DecidableEq, Repr

/-- The external-id record; fetch errors yield the defaults. -/
structure ExtIds where
  imdbId : String
  tvdbId : String
  deriving DecidableEq, Repr

/-- Network surface of `search_tv_show`: `cfgOk` is `check_api_key()`,
`search` the structured `search/tv` endpoint, `web` the public-search
scrape plus details fetch of `perform_fallback_tv_search`, `yearSearch`
the `query={year}` fallback and `externalIds` the `/external_ids` fetch
(with errors already folded to empty strings). -/
structure TvOracle where
  cfgOk : Bool
  search : String → Option Nat → Transport (List TvShow)
  web : String → Transport (List TvShow)
  yearSearch : Nat → Transport (List TvShow)
  externalIds : Nat → ExtIds

/-- `fetch_results` of `search_tv_show`: first without the year, then with
it if the first attempt was empty. -/
def tvFetch (resp : String → Option Nat → List TvShow) (q : String)
    (y : Option Nat) : List TvShow :=
  let r1 := resp q none
  if r1.isEmpty && pyYearTruthy y then resp q y else r1

/-- `re.sub(r'\s*\(.*$', '', query)`: drop everything from the leftmost
(optionally space-preceded) '(' onward. -/
def dropFromParen : List Char → List Char
  | [] => []
  | c :: cs =>
    let t := (c :: cs).dropWhile isSpaceChar
    if (match t with | '(' :: _ => true | _ => false) &&
        (isSpaceChar c || c == '(') then []
    else c :: dropFromParen cs

/-- The cascade core of `search_tv_show` (lines 80-123), over plain
response functions (each transport error has already been folded to an
empty list by `perform_search` / the inline handler). -/
def tvCascade (h : Helpers) (resp : String → Option Nat → List TvShow)
    (webResp : String → List TvShow) (yearResp : Nat → List TvShow)
    (query : String) (year : Option Nat) (actualDir : Option String)
    (file : Option String) : List TvShow :=
  let s1 := tvFetch resp query year
  let s2 := if s1.isEmpty then tvFetch resp (h.extract_title query) year else s1
  let s3 := if s2.isEmpty then webResp (h.remove_genre_names query) else s2
  let s4 := if s3.isEmpty && pyYearTruthy year then
      tvFetch resp (String.mk (stripL (dropFromParen query.toList))) year
    else s3
  let s5 := if s4.isEmpty then
      tvFetch resp (h.pair_query (h.clean_query_file file)) year
    else s4
  let s6 := if s5.isEmpty && pyYearTruthy year then yearResp (year.getD 0) else s5
  let s7 := if s6.isEmpty then
      let (ct, yq) := h.clean_query query
      if ct ≠ query then tvFetch resp ct (pyOrYear year yq) else s6
    else s6
  if s7.isEmpty && actualDir.isSome then
    let (cq, dy) := h.clean_query (basenameStr (actualDir.getD ""))
    tvFetch resp cq (pyOrYear year dy)
  else s7

/-- `search_tv_show` of MediaHub/api/tmdb_api.py (lines 45-169). -/
def search_tv_show (h : Helpers) (o : TvOracle) (flags : IdFlags)
    (cache : ApiCache) (choice : String) (query : String) (year : Option Nat)
    (autoSelect : Bool) (actualDir : Option String) (file : Option String) :
    String × ApiCache :=
  if !o.cfgOk then (query, cache)
  else
    match cache.lookup (query, year) with
    | some v => (v, cache)
    | none =>
      let results := tvCascade h (fun q y => transportToList (o.search q y))
        (fun q => transportToList (o.web q))
        (fun n => transportToList (o.yearSearch n)) query year actualDir file
      match results with
      | [] => (query, cacheInsert cache (query, year) query)
      | r0 :: rest =>
        let chosen : Option TvShow :=
          if autoSelect then some r0
          else if rest.isEmpty then some r0
          else chooseFrom choice (r0 :: rest)
        match chosen with
        | some s =>
          let ext := o.externalIds s.id
          let proper :=
            if flags.imdb then
              s.name ++ " (" ++ showYear s ++ ") \x7bimdb-" ++ ext.imdbId ++ "\x7d"
            else if flags.tvdb then
              s.name ++ " (" ++ showYear s ++ ") \x7btvdb-" ++ ext.tvdbId ++ "\x7d"
            else
              s.name ++ " (" ++ showYear s ++ ") \x7btmdb-" ++ toString s.id ++ "\x7d"
          (proper, cacheInsert cache (query, year) proper)
        | none => (query, cacheInsert cache (query, year) query)

/-- Network surface of `search_movie`. -/
structure MovieOracle where
  cfgOk : Bool
  search : String → Option Nat → Transport (List Movie)
  externalIds : Nat → String

/-- `fetch_results` of `search_movie`: with the year attached when truthy,
retried without it on an empty result. -/
def movieFetch (resp : String → Option Nat → List Movie) (q : String)
    (y : Option Nat) : List Movie :=
  if pyYearTruthy y then
    let r1 := resp q y
    if r1.isEmpty then resp q none else r1
  else resp q none

/-- The possible return shapes of `search_movie`: a plain string (cache
hits, missing key, unresolved), the `(file, cleaned_title)` tuple of the
cleaned-filename step, or the `(tmdb_id, imdb_id, movie_name)` tuple of a
chosen candidate. -/
inductive MovieRes where
  | name (s : String)
  | filePair (file cleanedTitle : String)
  | chosen (tmdbId : Nat) (imdbId : String) (title : String)
  deriving DecidableEq, Repr

/-- `search_movie` of MediaHub/api/tmdb_api.py (lines 213-338).  The call
`perform_fallback_movie_search(query, year)` at line 265 names a function
that does not exist anywhere in the module (only `perform_fallback_search`
and `perform_fallback_tv_search` are defined), so reaching it raises
`NameError` and the remaining cascade steps (lines 267-296) are
unreachable. -/
def search_movie (h : Helpers) (o : MovieOracle) (flags : IdFlags)
    (cache : ApiCache) (choice : String) (query : String) (year : Option Nat)
    (autoSelect : Bool) (file : Option String) :
    Except PyErr (MovieRes × ApiCache) :=
  if !o.cfgOk then .ok (.name query, cache)
  else
    match cache.lookup (query, year) with
    | some v => .ok (.name v, cache)
    | none =>
      let resp := fun q y => transportToList (o.search q y)
      let s1 := movieFetch resp query year
      let s2 := if s1.isEmpty then movieFetch resp (h.extract_title query) year
        else s1
      if s2.isEmpty && file.isSome then
        let ct := h.clean_query_movie (file.getD "")
        let _ := movieFetch resp ct year  -- fetched, then discarded
        .ok (.filePair (file.getD "") ct, cache)  -- returns without caching
      else if s2.isEmpty then
        .error .nameError
      else
        match s2 with
        | [] => .error .nameError
        | r0 :: rest =>
          let chosen : Option Movie :=
            if autoSelect then some r0
            else if rest.isEmpty then some r0
            else chooseFrom choice (r0 :: rest)
          match chosen with
          | some m =>
            let imdb := o.externalIds m.id
            let proper :=
              if flags.imdb then
                m.title ++ " (" ++ movieYear m ++ ") \x7bimdb-" ++ imdb ++ "\x7d"
              else if flags.tmdb then
                m.title ++ " (" ++ movieYear m ++ ") \x7btmdb-" ++
                  toString m.id ++ "\x7d"
              else m.title ++ " (" ++ movieYear m ++ ")"
            .ok (.chosen m.id imdb m.title, cacheInsert cache (query, year) proper)
          | none => .ok (.name query, cacheInsert cache (query, year) query)

/-! ### `get_episode_name` (MediaHub/api/tmdb_api.py, lines 398-454) -/

/-- Response of the episode endpoint: a name, a 404, or another transport
error (non-404 HTTP errors and `RequestException`s are handled alike). -/
inductive EpResp where
  | ok (name : String)
  | http404
  | err
  deriving DecidableEq, Repr

inductive SeasonResp where
  | ok (episodes : List String)
  | err
  deriving DecidableEq, Repr

/-- `get_episode_name`: fetch the episode; on a 404, fetch the season, and
when the requested number exceeds the season's episode count, retry once
at `(n % total) or total`. -/
def get_episode_name (epOracle : Nat → Nat → Nat → EpResp)
    (seasonOracle : Nat → Nat → SeasonResp) (apiKey : Bool)
    (showId seasonNumber episodeNumber : Nat) : Option String :=
  if !apiKey then none
  else
    match epOracle showId seasonNumber episodeNumber with
    | .ok name =>
      some ("S" ++ pad2 seasonNumber ++ "E" ++ pad2 episodeNumber ++ " - " ++ name)
    | .err => none
    | .http404 =>
      match seasonOracle showId seasonNumber with
      | .err => none
      | .ok episodes =>
        let total := episodes.length
        if total == 0 then none
        else if episodeNumber > total then
          let mapped :=
            if episodeNumber % total == 0 then total else episodeNumber % total
          match epOracle showId seasonNumber mapped with
          | .ok name2 =>
            some ("S" ++ pad2 seasonNumber ++ "E" ++ pad2 mapped ++ " - " ++ name2)
          | _ => none
        else none

end TmdbApi

/-- A concrete `ShowEnv` whose destination tree already holds the show
folder `My Show Season 2` under `Shows`, with the skip-extras toggle on. -/
def c6env : ShowEnv :=
  { isdir := fun p => p == "dest/CineSync/Shows/Shows/My Show Season 2",
    apiKey := false, tvLookup := fun _ _ _ => "", epName := fun _ _ _ => none,
    skipExtras := true }

/-- Identity stubs for the collaborators imported from the missing
`utils.file_utils` module. -/
def stubHelpers : TmdbApi.Helpers :=
  { extract_title := fun s => s,
    remove_genre_names := fun s => s,
    clean_query := fun s => (s, none),
    clean_query_file := fun f => (f.getD "", none),
    pair_query := fun p => p.1,
    clean_query_movie := fun s => s }

/-- A movie oracle whose every request succeeds with no candidates. -/
def emptyMovieOracle : TmdbApi.MovieOracle :=
  { cfgOk := true, search := fun _ _ => .ok [], externalIds := fun _ => "" }

/-- A movie oracle whose every request raises a transport error. -/
def errMovieOracle : TmdbApi.MovieOracle :=
  { cfgOk := true, search := fun _ _ => .err, externalIds := fun _ => "" }

/-- A movie oracle whose every request finds a single candidate. -/
def oneMovieOracle : TmdbApi.MovieOracle :=
  { cfgOk := true,
    search := fun _ _ =>
      .ok [{ title := "Api Movie", releaseDate := some "2018-03-01", id := 55 }],
    externalIds := fun _ => "tt0000055" }

/-- A show environment with nothing on disk and no API key. -/
def stubShowEnv : ShowEnv :=
  { isdir := fun _ => false, apiKey := false, tvLookup := fun _ _ _ => "",
    epName := fun _ _ _ => none, skipExtras := false }

/-- A movie environment with no API key and an empty destination tree. -/
def stubMovieEnv : MovieEnv :=
  { apiKey := false, collectionEnabled := false,
    movieLookup := fun _ _ _ => .other, collectionOf := fun _ => none,
    walkDirs := [] }

/-- Replace the structured-search endpoint of a TV oracle. -/
def withSearch (o : TmdbApi.TvOracle)
    (f : String → Option Nat → Transport (List TvShow)) : TmdbApi.TvOracle :=
  { o with search := f }

/-- Replace the web-scrape endpoint of a TV oracle. -/
def withWeb (o : TmdbApi.TvOracle)
    (f : String → Transport (List TvShow)) : TmdbApi.TvOracle :=
  { o with web := f }

/-- Replace the year-query endpoint of a TV oracle. -/
def withYearSearch (o : TmdbApi.TvOracle)
    (f : Nat → Transport (List TvShow)) : TmdbApi.TvOracle :=
  { o with yearSearch := f }

/-! # Theorems -/

/-! ## C7 — the materializer state machine -/

theorem entryAt_fsSet (fs : FS) (p p' : String) (e : FsEntry) :
    entryAt (fsSet fs p e) p' = if p' = p then e else entryAt fs p' := by
  simp only [entryAt, fsSet, List.lookup]
  by_cases h : p' = p
  · simp [h]
  · simp [h, beq_false_of_ne h]

/-- C7: the materializer follows the specified per-item state machine —
a destination symlink to the same source is left alone (`AlreadyLinked`),
a symlink elsewhere is removed and recreated (`Replaced`), an occupying
non-symlink file or directory is skipped, and an absent destination gets
parent directories and a fresh symlink (or directory copy) (`Created`);
consequently materializing twice with identical source and destination
yields `Created` then `AlreadyLinked` with no filesystem change on the
second run. -/
theorem c7_materializer_state_machine (fs : FS) (src dest : String) (b : Bool) :
    (entryAt fs dest = .slink src →
      materialize fs src dest b = (.AlreadyLinked, mkdirsParent fs dest)) ∧
    (∀ t, entryAt fs dest = .slink t → t ≠ src →
      materialize fs src dest b =
        (.Replaced, fsSet (fsSet (mkdirsParent fs dest) dest .absent) dest
          (if b then .dir else .slink src))) ∧
    (entryAt fs dest = .file ∨ entryAt fs dest = .dir →
      materialize fs src dest b = (.Skipped, mkdirsParent fs dest)) ∧
    (entryAt fs dest = .absent → dest ≠ dirnameStr dest →
      materialize fs src dest b =
        (.Created, fsSet (mkdirsParent fs dest) dest
          (if b then .dir else .slink src))) ∧
    (entryAt fs dest = .absent → dest ≠ dirnameStr dest →
      (materialize fs src dest false).1 = .Created ∧
      (materialize (materialize fs src dest false).2 src dest false).1 =
        .AlreadyLinked ∧
      (materialize (materialize fs src dest false).2 src dest false).2 =
        (materialize fs src dest false).2) := by
  have hparent : ∀ gs : FS, entryAt (mkdirsParent gs dest) (dirnameStr dest) ≠
      .absent := by
    intro gs
    simp only [mkdirsParent]
    split
    · rw [entryAt_fsSet]; simp
    · assumption
  have hmkNoop : ∀ gs : FS, entryAt gs (dirnameStr dest) ≠ .absent →
      mkdirsParent gs dest = gs := by
    intro gs hne
    simp only [mkdirsParent]
    split
    · rename_i habs; exact absurd habs hne
    · rfl
  have hpar : entryAt fs dest ≠ .absent →
      entryAt (mkdirsParent fs dest) dest = entryAt fs dest := by
    intro h
    simp only [mkdirsParent]
    split
    · rename_i habs
      rw [entryAt_fsSet]
      split
      · rename_i he
        exact absurd (he ▸ habs) h
      · rfl
    · rfl
  refine ⟨?_, ?_, ?_, ?_, ?_⟩
  · intro h
    have hd : entryAt (mkdirsParent fs dest) dest = .slink src := by
      rw [hpar (by simp [h])]; exact h
    simp only [materialize, hd]
    simp
  · intro t h hne
    have hd : entryAt (mkdirsParent fs dest) dest = .slink t := by
      rw [hpar (by simp [h])]; exact h
    simp only [materialize, hd]
    simp [hne]
  · intro h
    rcases h with h | h <;>
    · have hd := hpar (by simp [h])
      rw [h] at hd
      simp only [materialize, hd]
  · intro h hne
    have hd : entryAt (mkdirsParent fs dest) dest = .absent := by
      simp only [mkdirsParent]
      split
      · rw [entryAt_fsSet]
        split
        · rename_i he; exact absurd he hne
        · exact h
      · exact h
    simp only [materialize, hd]
  · intro h hne
    have hd : entryAt (mkdirsParent fs dest) dest = .absent := by
      simp only [mkdirsParent]
      split
      · rw [entryAt_fsSet]
        split
        · rename_i he; exact absurd he hne
        · exact h
      · exact h
    have h1 : materialize fs src dest false =
        (.Created, fsSet (mkdirsParent fs dest) dest (.slink src)) := by
      simp only [materialize, hd]
      simp
    rw [h1]
    have hnext : mkdirsParent (fsSet (mkdirsParent fs dest) dest (.slink src))
        dest = fsSet (mkdirsParent fs dest) dest (.slink src) := by
      apply hmkNoop
      rw [entryAt_fsSet]
      split
      · simp
      · exact hparent fs
    have hd2 : entryAt (fsSet (mkdirsParent fs dest) dest (.slink src)) dest =
        .slink src := by
      rw [entryAt_fsSet]; simp
    have h2 : materialize (fsSet (mkdirsParent fs dest) dest (.slink src)) src
        dest false = (.AlreadyLinked,
          fsSet (mkdirsParent fs dest) dest (.slink src)) := by
      simp only [materialize, hnext, hd2]
      simp
    rw [h2]
    exact ⟨rfl, rfl, rfl⟩

/-- Witness for C7 at a concrete filesystem: an empty destination tree,
source `"media/a.mkv"`, destination `"dest/CineSync/a.mkv"`. -/
theorem c7_materializer_witness :
    (materialize [] "media/a.mkv" "dest/CineSync/a.mkv" false).1 = .Created ∧
    (materialize (materialize [] "media/a.mkv" "dest/CineSync/a.mkv" false).2
      "media/a.mkv" "dest/CineSync/a.mkv" false).1 = .AlreadyLinked ∧
    (materialize (materialize [] "media/a.mkv" "dest/CineSync/a.mkv" false).2
      "media/a.mkv" "dest/CineSync/a.mkv" false).2 =
      (materialize [] "media/a.mkv" "dest/CineSync/a.mkv" false).2 :=
  (c7_materializer_state_machine [] "media/a.mkv" "dest/CineSync/a.mkv"
    false).2.2.2.2 (by decide) (by decide)

/-! ## C5 — absolute episode remapping -/

theorem mul_sub_one_mod (total q : Nat) (ht : 1 ≤ total) (hq : 1 ≤ q) :
    (total * q - 1) % total = total - 1 := by
  induction q with
  | zero => omega
  | succ q' ih =>
    rcases Nat.eq_zero_or_pos q' with h0 | hpos
    · subst h0
      rw [Nat.mul_one]
      exact Nat.mod_eq_of_lt (by omega)
    · have hstep : total * (q' + 1) - 1 = (total * q' - 1) + total := by
        have hge : 1 ≤ total * q' := Nat.mul_pos ht hpos
        rw [Nat.mul_add, Nat.mul_one]
        omega
      rw [hstep, Nat.add_mod_right]
      exact ih hpos

/-- Python's `(n % total) or total` equals `((n - 1) mod total) + 1` for
positive `n` and `total`. -/
theorem pyModOr_eq (n total : Nat) (ht : 1 ≤ total) (hn : 1 ≤ n) :
    (if n % total = 0 then total else n % total) = (n - 1) % total + 1 := by
  have h0 : total * (n / total) + n % total = n := Nat.div_add_mod n total
  by_cases hr : n % total = 0
  · rw [if_pos hr]
    rw [hr, Nat.add_zero] at h0
    have hq : 1 ≤ n / total := by
      rcases Nat.eq_zero_or_pos (n / total) with h | h
      · rw [h, Nat.mul_zero] at h0
        omega
      · exact h
    have htail : (n - 1) % total = total - 1 := by
      rw [← h0]
      exact mul_sub_one_mod total (n / total) ht hq
    rw [htail]
    omega
  · rw [if_neg hr]
    have hrpos : 1 ≤ n % total := Nat.one_le_iff_ne_zero.mpr hr
    have hrlt : n % total < total := Nat.mod_lt n (by omega)
    have hsplit : n - 1 = total * (n / total) + (n % total - 1) := by
      have ha := Nat.add_sub_assoc hrpos (total * (n / total))
      rw [h0] at ha
      exact ha
    rw [hsplit, Nat.mul_add_mod,
      Nat.mod_eq_of_lt (show n % total - 1 < total by omega)]
    omega

/-- C5: when the requested episode number exceeds the season's actual
episode count and the provider returns 404 for it, `get_episode_name`
remaps it to `((n - 1) mod total) + 1` and retries exactly once with the
mapped number, returning that episode's formatted name. -/
theorem c5_absolute_episode_remap
    (epO : Nat → Nat → Nat → TmdbApi.EpResp)
    (seasonO : Nat → Nat → TmdbApi.SeasonResp)
    (sid sn n total : Nat) (eps : List String) (nm : String)
    (h404 : epO sid sn n = .http404)
    (hseason : seasonO sid sn = .ok eps)
    (htotal : eps.length = total)
    (h1 : 1 ≤ total) (hgt : total < n)
    (hmapped : epO sid sn ((n - 1) % total + 1) = .ok nm) :
    TmdbApi.get_episode_name epO seasonO true sid sn n =
      some ("S" ++ pad2 sn ++ "E" ++ pad2 ((n - 1) % total + 1) ++ " - " ++ nm) := by
  have hmodB : (if n % total == 0 then total else n % total) =
      (n - 1) % total + 1 := by
    have hmod := pyModOr_eq n total h1 (by omega)
    by_cases hr : n % total = 0
    · have hb : (n % total == 0) = true := by simp [hr]
      rw [hb, if_pos rfl, ← hmod, if_pos hr]
    · have hb : (n % total == 0) = false := by simp [hr]
      rw [hb]
      rw [if_neg hr] at hmod
      simpa using hmod
  have hzb : (total == 0) = false := by simp; omega
  simp only [TmdbApi.get_episode_name, h404, hseason, htotal, Bool.not_true,
    Bool.false_eq_true, if_false, hzb]
  rw [if_pos hgt, hmodB, hmapped]

/-- Witness for C5: absolute episode 13 in a 10-episode season maps to
episode 3 (`((13-1) mod 10) + 1`). -/
theorem c5_absolute_episode_witness :
    TmdbApi.get_episode_name
      (fun _ s e => if s == 1 && e == 13 then .http404
        else if s == 1 && e == 3 then .ok "Mapped" else .err)
      (fun _ s => if s == 1 then
        .ok ["e1", "e2", "e3", "e4", "e5", "e6", "e7", "e8", "e9", "e10"]
        else .err)
      true 5 1 13 = some ("S" ++ pad2 1 ++ "E" ++ pad2 ((13 - 1) % 10 + 1) ++
        " - " ++ "Mapped") :=
  c5_absolute_episode_remap
    (fun _ s e => if s == 1 && e == 13 then .http404
      else if s == 1 && e == 3 then .ok "Mapped" else .err)
    (fun _ s => if s == 1 then
      .ok ["e1", "e2", "e3", "e4", "e5", "e6", "e7", "e8", "e9", "e10"]
      else .err)
    5 1 13 10 ["e1", "e2", "e3", "e4", "e5", "e6", "e7", "e8", "e9", "e10"]
    "Mapped" (by decide) (by decide) (by decide) (by decide) (by decide)
    (by decide)

/-! ## C10 — `extract_folder_year` and the resolution guard -/

theorem delimYearAt_shape (oc cc : Char) (s yr : List Char)
    (h : delimYearAt oc cc s = some yr) :
    ∃ a b c d, yr = [a, b, c, d] ∧ isDigitChar a = true ∧ isDigitChar b = true ∧
      isDigitChar c = true ∧ isDigitChar d = true := by
  unfold delimYearAt at h
  split at h
  · rename_i o1 d1 d2 d3 d4 c1 rest
    split at h
    · rename_i hcond
      simp only [Bool.and_eq_true, beq_iff_eq] at hcond
      cases h
      exact ⟨d1, d2, d3, d4, rfl, hcond.1.1.1.1.2, hcond.1.1.1.2, hcond.1.1.2,
        hcond.1.2⟩
    · exact absurd h (by simp)
  · exact absurd h (by simp)

theorem scanDelimYear_shape (oc cc : Char) (s yr : List Char)
    (h : scanDelimYear oc cc s = some yr) :
    ∃ a b c d, yr = [a, b, c, d] ∧ isDigitChar a = true ∧ isDigitChar b = true ∧
      isDigitChar c = true ∧ isDigitChar d = true := by
  induction s with
  | nil => exact absurd h (by simp [scanDelimYear])
  | cons c0 cs ih =>
    rw [scanDelimYear] at h
    rcases hdel : delimYearAt oc cc (c0 :: cs) with _ | yr0
    · rw [hdel] at h
      exact ih h
    · rw [hdel] at h
      cases h
      exact delimYearAt_shape oc cc (c0 :: cs) yr hdel

/-- A 4-digit character run whose numeric value is at least 1000 is
determined by that value. -/
theorem fourDigit_value_chars (a b c d : Char)
    (ha : isDigitChar a = true) (hb : isDigitChar b = true)
    (hc : isDigitChar c = true) (hd : isDigitChar d = true)
    (n : Nat) (hn : digitsToNat [a, b, c, d] = n) :
    a = Char.ofNat (n / 1000 + 48) ∧ b = Char.ofNat (n / 100 % 10 + 48) ∧
      c = Char.ofNat (n / 10 % 10 + 48) ∧ d = Char.ofNat (n % 10 + 48) := by
  simp only [isDigitChar, Bool.and_eq_true, decide_eq_true_eq] at ha hb hc hd
  simp only [digitsToNat, List.foldl] at hn
  have hva : a.toNat = n / 1000 + 48 := by omega
  have hvb : b.toNat = n / 100 % 10 + 48 := by omega
  have hvc : c.toNat = n / 10 % 10 + 48 := by omega
  have hvd : d.toNat = n % 10 + 48 := by omega
  refine ⟨?_, ?_, ?_, ?_⟩
  · rw [← hva]; exact (Char.ofNat_toNat a).symm
  · rw [← hvb]; exact (Char.ofNat_toNat b).symm
  · rw [← hvc]; exact (Char.ofNat_toNat c).symm
  · rw [← hvd]; exact (Char.ofNat_toNat d).symm

theorem guarded_token_value (yr : List Char)
    (hshape : ∃ a b c d, yr = [a, b, c, d] ∧ isDigitChar a = true ∧
      isDigitChar b = true ∧ isDigitChar c = true ∧ isDigitChar d = true)
    (hguard : resolutionsSet.contains (String.mk yr) = false) :
    digitsToNat yr ≠ 1080 ∧ digitsToNat yr ≠ 2160 := by
  obtain ⟨a, b, c, d, rfl, ha, hb, hc, hd⟩ := hshape
  constructor
  · intro hv
    obtain ⟨ea, eb, ec, ed⟩ := fourDigit_value_chars a b c d ha hb hc hd 1080 hv
    rw [ea, eb, ec, ed] at hguard
    exact absurd hguard (by decide)
  · intro hv
    obtain ⟨ea, eb, ec, ed⟩ := fourDigit_value_chars a b c d ha hb hc hd 2160 hv
    rw [ea, eb, ec, ed] at hguard
    exact absurd hguard (by decide)

/-- C10 (amended): `extract_folder_year` never returns 1080 or 2160 —
the guard compares the matched 4-digit token with the strings `"1080"`,
`"480"`, `"720"`, `"2160"`, which rules out exactly the tokens `"1080"`
and `"2160"` (while `"0480"`/`"0720"` still evaluate to 480/720). -/
theorem c10_no_1080_2160 (folder : String) (n : Nat)
    (h : extract_folder_year folder = some n) : n ≠ 1080 ∧ n ≠ 2160 := by
  unfold extract_folder_year at h
  rcases hp : scanParenYear folder.toList with _ | yrp
  · simp only [hp] at h
    rcases hd : scanDotYear folder.toList with _ | yrd
    · simp only [hd] at h
      exact absurd h (by simp)
    · simp only [hd] at h
      split at h
      · exact absurd h (by simp)
      · rename_i hguard
        simp only [Option.some.injEq] at h
        subst h
        exact guarded_token_value yrd
          (scanDelimYear_shape '.' '.' folder.toList yrd hd)
          (by simpa using hguard)
  · simp only [hp] at h
    by_cases hg : resolutionsSet.contains (String.mk yrp) = true
    · rw [if_pos hg] at h
      rcases hd : scanDotYear folder.toList with _ | yrd
      · simp only [hd] at h
        exact absurd h (by simp)
      · simp only [hd] at h
        split at h
        · exact absurd h (by simp)
        · rename_i hguard
          simp only [Option.some.injEq] at h
          subst h
          exact guarded_token_value yrd
            (scanDelimYear_shape '.' '.' folder.toList yrd hd)
            (by simpa using hguard)
    · rw [if_neg hg] at h
      simp only [Option.some.injEq] at h
      subst h
      exact guarded_token_value yrp
        (scanDelimYear_shape '(' ')' folder.toList yrp hp)
        (by simpa using hg)

/-- Counterexample to C10 as stated: the resolution guard compares the
4-digit token against `'480'` (a 3-character string), so the zero-padded
token `"(0480)"` is accepted and `extract_folder_year` reports 480 — one
of the listed resolution values — as a release year. -/
theorem c10_counterexample :
    ¬ (∀ (folder : String) (n : Nat), extract_folder_year folder = some n →
        n ≠ 1080 ∧ n ≠ 480 ∧ n ≠ 720 ∧ n ≠ 2160) := by
  intro hall
  have h : extract_folder_year "(0480)" = some 480 := by decide
  exact (hall "(0480)" 480 h).2.1 rfl

/-- Witness for C10's amended theorem at a concrete folder name. -/
theorem c10_witness :
    extract_folder_year "The Matrix (1999)" = some 1999 ∧ 1999 ≠ 1080 ∧
      1999 ≠ 2160 :=
  ⟨by decide,
   (c10_no_1080_2160 "The Matrix (1999)" 1999 (by decide)).1,
   (c10_no_1080_2160 "The Matrix (1999)" 1999 (by decide)).2⟩


/-! ## C4 — `check_existing_variations` partial-match selection -/

theorem keyLt_irrefl (a : Nat × Nat) : keyLt a a = false := by
  simp [keyLt]

theorem keyLt_trans {a b c : Nat × Nat} (h1 : keyLt a b = true)
    (h2 : keyLt b c = true) : keyLt a c = true := by
  simp only [keyLt, Bool.or_eq_true, Bool.and_eq_true, decide_eq_true_eq,
    beq_iff_eq] at h1 h2 ⊢
  omega

theorem keyLt_le_lt {a b c : Nat × Nat} (h1 : keyLt a b = false)
    (h2 : keyLt a c = true) : keyLt b c = true := by
  simp only [keyLt, Bool.or_eq_true, Bool.and_eq_true, decide_eq_true_eq,
    beq_iff_eq, Bool.or_eq_false_iff, Bool.and_eq_false_iff,
    decide_eq_false_iff_not, Bool.not_eq_true] at h1 h2 ⊢
  rcases h1 with ⟨h1a, h1b⟩
  rcases h1b with h1b | h1b
  · simp only [beq_eq_false_iff_ne, ne_eq] at h1b
    omega
  · omega

theorem pickMin_mem (key : String → Nat × Nat) (p : String) (ps : List String) :
    pickMin key p ps ∈ p :: ps := by
  induction ps generalizing p with
  | nil => simp [pickMin]
  | cons d ds ih =>
    have hstep : pickMin key p (d :: ds) =
        pickMin key (if keyLt (key d) (key p) then d else p) ds := rfl
    rw [hstep]
    rcases List.mem_cons.mp (ih (if keyLt (key d) (key p) then d else p)) with
      h1 | h2
    · rw [h1]
      split
      · simp
      · simp
    · simp [List.mem_cons.mpr (Or.inr (List.mem_cons.mpr (Or.inr h2)))]

theorem pickMin_min (key : String → Nat × Nat) (p : String) (ps : List String) :
    ∀ d ∈ p :: ps, keyLt (key d) (key (pickMin key p ps)) = false := by
  induction ps generalizing p with
  | nil =>
    intro d hd
    simp only [List.mem_singleton] at hd
    subst hd
    simp [pickMin, keyLt_irrefl]
  | cons d0 ds ih =>
    by_cases hdp : keyLt (key d0) (key p) = true
    · have hstep : pickMin key p (d0 :: ds) = pickMin key d0 ds := by
        simp only [pickMin, List.foldl]
        rw [if_pos hdp]
      intro d hd
      rw [hstep]
      rcases List.mem_cons.mp hd with h1 | h2
      · subst h1
        have hih := ih d0 d0 (List.mem_cons_self d0 ds)
        by_cases hcontra : keyLt (key d) (key (pickMin key d0 ds)) = true
        · exact absurd (keyLt_trans hdp hcontra) (by simp [hih])
        · simpa using hcontra
      · exact ih d0 d h2
    · have hstep : pickMin key p (d0 :: ds) = pickMin key p ds := by
        simp only [pickMin, List.foldl]
        rw [if_neg hdp]
      intro d hd
      rw [hstep]
      rcases List.mem_cons.mp hd with h1 | h2
      · subst h1
        exact ih d d (List.mem_cons_self d ds)
      · rcases List.mem_cons.mp h2 with h3 | h4
        · subst h3
          have hih := ih p p (List.mem_cons_self p ds)
          by_cases hcontra : keyLt (key d) (key (pickMin key p ds)) = true
          · exact absurd (keyLt_le_lt (by simpa using hdp) hcontra)
              (by simp [hih])
          · simpa using hcontra
        · exact ih p d (List.mem_cons.mpr (Or.inr h4))

/-- C4: with no exact match and at least one partial match,
`check_existing_variations` returns a partial match minimizing the Python
key `(len(name), year-mismatch)` in lexicographic order. -/
theorem c4_partial_match_tiebreak (name : String) (year : Option Nat)
    (dirs : List String)
    (hex : dirs.find? (exactPred name year) = none)
    (hpart : dirs.filter (partialPred name) ≠ []) :
    ∃ d, check_existing_variations name year dirs = some d ∧
      d ∈ dirs.filter (partialPred name) ∧
      ∀ d2 ∈ dirs.filter (partialPred name),
        keyLt (variationKey year d2) (variationKey year d) = false := by
  unfold check_existing_variations
  rw [hex]
  rcases hfil : dirs.filter (partialPred name) with _ | ⟨p, ps⟩
  · exact absurd hfil hpart
  · exact ⟨pickMin (variationKey year) p ps, rfl, pickMin_mem _ p ps,
      pickMin_min _ p ps⟩

/-- Witness for C4 realizing the claim's concrete scenario: two partial
candidates of raw lengths 20 and 24, where only the longer one's year
matches the query year 2020; the shorter, year-mismatched one is
returned. -/
theorem c4_partial_match_witness :
    check_existing_variations "Epic Tales of Rings 20" (some 2020)
      ["Epic.Tales.of.Rings.", "Epic Tales of Rings 2020"] =
        some "Epic.Tales.of.Rings." ∧
    "Epic.Tales.of.Rings.".length = 20 ∧
    "Epic Tales of Rings 2020".length = 24 ∧
    extract_year "Epic.Tales.of.Rings." ≠ some 2020 ∧
    extract_year "Epic Tales of Rings 2020" = some 2020 ∧
    (∃ d, check_existing_variations "Epic Tales of Rings 20" (some 2020)
        ["Epic.Tales.of.Rings.", "Epic Tales of Rings 2020"] = some d ∧
      d ∈ ["Epic.Tales.of.Rings.",
        "Epic Tales of Rings 2020"].filter (partialPred "Epic Tales of Rings 20") ∧
      ∀ d2 ∈ ["Epic.Tales.of.Rings.",
        "Epic Tales of Rings 2020"].filter (partialPred "Epic Tales of Rings 20"),
        keyLt (variationKey (some 2020) d2) (variationKey (some 2020) d) = false) :=
  ⟨by decide, by decide, by decide, by decide, by decide,
   c4_partial_match_tiebreak "Epic Tales of Rings 20" (some 2020)
     ["Epic.Tales.of.Rings.", "Epic Tales of Rings 2020"] (by decide) (by decide)⟩

/-! ## C6 — the skip-extras toggle -/

/-- C6 (amended): when the skip-extras toggle is on and the file is
classified as an Extras item, `process_show` produces no destination
path — but only on the branch where the show folder already exists in
one of the destination resolution folders (lines 632-635 of
`library.py`); the skip guard is inside that `if` branch. -/
theorem c6_skip_extras_inside_existing (env : ShowEnv)
    (tmdbFolderId renameEnabled autoSel : Bool)
    (root file destDir : String) (epMatch : Option (String × String))
    (hskip : env.skipExtras = true)
    (hcx : (showNaming env tmdbFolderId autoSel root epMatch).createExtras = true)
    (hfound : (find_show_folder_in_resolution_folders env.isdir destDir
        (showNaming env tmdbFolderId autoSel root epMatch).showFolder).isSome = true) :
    process_show env tmdbFolderId renameEnabled autoSel root file destDir epMatch =
      Except.ok none := by
  obtain ⟨exPath, hex⟩ := Option.isSome_iff_exists.mp hfound
  simp only [process_show, hex, hskip, hcx, Bool.and_self, if_true]

/-- Witness for C6's amended theorem: an extras file of a show whose
folder already exists under `Shows` is skipped. -/
theorem c6_skip_extras_witness :
    c6env.skipExtras = true ∧
      (showNaming c6env true true "src/My Show Season 2" none).createExtras = true ∧
      (find_show_folder_in_resolution_folders c6env.isdir "dest"
        (showNaming c6env true true "src/My Show Season 2" none).showFolder).isSome = true ∧
      process_show c6env true false true "src/My Show Season 2"
        "Behind the Scenes.mkv" "dest" none = Except.ok none :=
  ⟨by decide, by decide, by decide,
   c6_skip_extras_inside_existing c6env true false true "src/My Show Season 2"
     "Behind the Scenes.mkv" "dest" none (by decide) (by decide) (by decide)⟩

/-- Counterexample to C6 as stated: with the skip-extras toggle on and an
Extras-classified file, `process_show` still computes a destination path
when the show folder does not yet exist anywhere under the destination
tree (`isdir` is constantly false), contradicting the claim that such
files are skipped regardless of whether the folder already exists. -/
theorem c6_counterexample :
    ¬ (∀ (env : ShowEnv) (tmdbFolderId renameEnabled autoSel : Bool)
        (root file destDir : String) (epMatch : Option (String × String)),
        env.skipExtras = true →
        (showNaming env tmdbFolderId autoSel root epMatch).createExtras = true →
        process_show env tmdbFolderId renameEnabled autoSel root file destDir
          epMatch = Except.ok none) := by
  intro hall
  have h := hall
    { isdir := fun _ => false, apiKey := false, tvLookup := fun _ _ _ => "",
      epName := fun _ _ _ => none, skipExtras := true }
    true false true "src/My Show Season 2" "Behind the Scenes.mkv" "dest" none
    rfl rfl
  have hv : process_show
      { isdir := fun _ => false, apiKey := false, tvLookup := fun _ _ _ => "",
        epName := fun _ _ _ => none, skipExtras := true }
      true false true "src/My Show Season 2" "Behind the Scenes.mkv" "dest" none =
      Except.ok (some
        "dest/CineSync/Shows/Shows/My Show Season 2/Behind the Scenes.mkv") := rfl
  rw [h] at hv
  exact Option.noConfusion (Except.ok.inj hv)

/-! ## C2 — the movie cascade's return shapes -/

/-- C2: the spec's movie cascade is broken in the code.  First conjunct:
when the initial title searches come back empty and a filename is
available, `search_movie` returns the `(file, cleaned_title)` pair — not
a resolved candidate — and leaves the cache untouched.  Second conjunct:
when the cleaned-filename step is not applicable, the call to the
undefined `perform_fallback_movie_search` (line 265) raises `NameError`
instead of attempting the later cascade steps.  Third conjunct: a
successful early step does return the resolved-candidate shape. -/
theorem c2_movie_cascade_shape_divergence :
    TmdbApi.search_movie stubHelpers emptyMovieOracle ⟨false, false, true⟩ []
        "1" "Some Movie" (some 2019) true (some "Some.Movie.2019.mkv") =
      .ok (.filePair "Some.Movie.2019.mkv" "Some.Movie.2019.mkv", []) ∧
    TmdbApi.search_movie stubHelpers emptyMovieOracle ⟨false, false, true⟩ []
        "1" "Some Movie" (some 2019) true none = .error .nameError ∧
    TmdbApi.search_movie stubHelpers oneMovieOracle ⟨false, false, true⟩ []
        "1" "Api Movie" (some 2018) true (some "f.mkv") =
      .ok (.chosen 55 "tt0000055" "Api Movie",
        [(("Api Movie", some 2018), "Api Movie (2018) \x7btmdb-55\x7d")]) :=
  ⟨rfl, rfl, rfl⟩

/-! ## C3 — transport errors and the cascades -/

/-- C3: in the TV resolver a transport error at any single endpoint is
equivalent to an empty result for that endpoint (first three conjuncts),
and the library resolver returns normally on a failed request (fourth
conjunct); but `search_movie` with every request failing aborts with
`NameError` at the undefined `perform_fallback_movie_search` instead of
returning a result, so a transport failure can abort the whole movie
resolution (last conjunct). -/
theorem c3_transport_error_containment :
    (∀ (h : TmdbApi.Helpers) (o : TmdbApi.TvOracle) (flags : TmdbApi.IdFlags)
        (cache : ApiCache) (choice query : String) (year : Option Nat)
        (autoSelect : Bool) (actualDir file : Option String),
        TmdbApi.search_tv_show h (withSearch o (fun _ _ => .err)) flags cache
            choice query year autoSelect actualDir file =
          TmdbApi.search_tv_show h (withSearch o (fun _ _ => .ok [])) flags cache
            choice query year autoSelect actualDir file) ∧
    (∀ (h : TmdbApi.Helpers) (o : TmdbApi.TvOracle) (flags : TmdbApi.IdFlags)
        (cache : ApiCache) (choice query : String) (year : Option Nat)
        (autoSelect : Bool) (actualDir file : Option String),
        TmdbApi.search_tv_show h (withWeb o (fun _ => .err)) flags cache
            choice query year autoSelect actualDir file =
          TmdbApi.search_tv_show h (withWeb o (fun _ => .ok [])) flags cache
            choice query year autoSelect actualDir file) ∧
    (∀ (h : TmdbApi.Helpers) (o : TmdbApi.TvOracle) (flags : TmdbApi.IdFlags)
        (cache : ApiCache) (choice query : String) (year : Option Nat)
        (autoSelect : Bool) (actualDir file : Option String),
        TmdbApi.search_tv_show h (withYearSearch o (fun _ => .err)) flags cache
            choice query year autoSelect actualDir file =
          TmdbApi.search_tv_show h (withYearSearch o (fun _ => .ok [])) flags
            cache choice query year autoSelect actualDir file) ∧
    (∀ (choice query : String) (year : Option Nat) (autoSelect : Bool),
        Library.search_tv_show [] (fun _ _ => .err) true choice query year
          autoSelect = (query, [], [(query, year)])) ∧
    TmdbApi.search_movie stubHelpers errMovieOracle ⟨false, false, true⟩ []
        "1" "Some Movie" (some 2019) true none = Except.error .nameError :=
  ⟨fun _ _ _ _ _ _ _ _ _ _ => rfl, fun _ _ _ _ _ _ _ _ _ _ => rfl,
   fun _ _ _ _ _ _ _ _ _ _ => rfl, fun _ _ _ _ => rfl, rfl⟩

/-! ## C9 — error containment across the worker pool -/

/-- C9: one file's failure does abort the run.  Over two discovered
files, the first (no extractable movie name, so `process_file` passes
`None` to `os.path.dirname` and raises `TypeError`) poisons the
collection loop: `task.result()` re-raises it and the run ends in that
error, even though the second file's task itself completed and produced
its symlink. -/
theorem c9_first_error_aborts_run :
    create_symlinks stubShowEnv stubMovieEnv true false true [] [] "dest"
        [("src/RandomFolder", "video.mkv"),
         ("src/Good Movie (2019)", "video.mkv")] =
      (Except.error PyErr.typeError,
       [Except.error PyErr.typeError,
        Except.ok (some "dest/CineSync/Movies/Movies/Good Movie (2019)/video.mkv",
          [("dest/CineSync/Movies/Movies/Good Movie (2019)/video.mkv",
            FsEntry.slink "src/Good Movie (2019)/video.mkv"),
           ("dest/CineSync/Movies/Movies/Good Movie (2019)", FsEntry.dir)])]) := rfl

/-! ## C8 — resolver memoization -/

theorem lookup_cacheInsert (c : ApiCache) (k : String × Option Nat) (v : String) :
    (cacheInsert c k v).lookup k = some v := by
  simp [cacheInsert, List.lookup]

/-- The caching facts of the resolver body: an `_api_cache` hit is
returned as-is with no request, and a completed request (even one with
an empty result) records the returned name under `(query, year)`. -/
theorem search_tv_body_memoization (cache : ApiCache)
    (oracle : String → Option Nat → Transport (List TvShow))
    (choice query : String) (year : Option Nat) (autoSelect : Bool) :
    (∀ v, cache.lookup (query, year) = some v →
      Library.search_tv_show cache oracle true choice query year autoSelect =
        (v, cache, [])) ∧
    (∀ results, cache.lookup (query, year) = none →
      oracle query year = .ok results →
      ((Library.search_tv_show cache oracle true choice query year
          autoSelect).2.1).lookup (query, year) =
        some (Library.search_tv_show cache oracle true choice query year
          autoSelect).1) := by
  constructor
  · intro v hv
    simp only [Library.search_tv_show, hv]
  · intro results hmiss hok
    simp only [Library.search_tv_show, hmiss, hok]
    cases results with
    | nil => simpa using lookup_cacheInsert cache (query, year) query
    | cons r0 rest =>
      rcases hch : (if autoSelect then some r0 else if rest.isEmpty then some r0
          else chooseFrom choice (r0 :: rest)) with _ | s
      · simp only [hch]
        simpa using lookup_cacheInsert cache (query, year) query
      · simp only [hch]
        simpa using lookup_cacheInsert cache (query, year) (Library.properName s)

/-- C8 (amended): what the two caching layers of the library TV resolver
guarantee.  (1) A repeat of the identical argument tuple is answered from
the `lru_cache` memo with no request and no state change — this covers
the pass-through return of a failed request, which `lru_cache` memoizes.
(2) On an `lru_cache` miss, an `_api_cache` hit for `(query, year)` is
returned with no request, and memoized.  (3) When both layers miss and
the request completes — even with an empty, i.e. unresolved, result —
the returned name is recorded in the returned `_api_cache` under the
original `(query, year)` key. -/
theorem c8_memoization_on_success (lru : Library.LruCache) (cache : ApiCache)
    (oracle : String → Option Nat → Transport (List TvShow))
    (choice query : String) (year : Option Nat) (autoSelect : Bool) :
    (∀ v, lru.lookup (query, year, autoSelect) = some v →
      Library.search_tv_show_cached lru cache oracle true choice query year
        autoSelect = (v, lru, cache, [])) ∧
    (∀ v, lru.lookup (query, year, autoSelect) = none →
      cache.lookup (query, year) = some v →
      Library.search_tv_show_cached lru cache oracle true choice query year
        autoSelect = (v, ((query, year, autoSelect), v) :: lru, cache, [])) ∧
    (∀ results, lru.lookup (query, year, autoSelect) = none →
      cache.lookup (query, year) = none →
      oracle query year = .ok results →
      ((Library.search_tv_show_cached lru cache oracle true choice query year
          autoSelect).2.2.1).lookup (query, year) =
        some (Library.search_tv_show_cached lru cache oracle true choice query
          year autoSelect).1) := by
  refine ⟨?_, ?_, ?_⟩
  · intro v hv
    simp only [Library.search_tv_show_cached, hv]
  · intro v hl hv
    simp only [Library.search_tv_show_cached, hl, Library.search_tv_show, hv]
  · intro results hl hmiss hok
    rcases hbody : Library.search_tv_show cache oracle true choice query year
      autoSelect with ⟨r, cache2, reqs⟩
    have h := (search_tv_body_memoization cache oracle choice query year
      autoSelect).2 results hmiss hok
    rw [hbody] at h
    simp only [Library.search_tv_show_cached, hl, hbody]
    simpa using h

/-- Witness for C8's amended theorem: an `lru_cache` hit short-circuits,
a `_api_cache` hit is returned and memoized, and an unresolved but
completed lookup is cached under its original key. -/
theorem c8_memoization_witness :
    Library.search_tv_show_cached [(("Q", some 2020, true), "V")] []
        (fun _ _ => Transport.err) true "1" "Q" (some 2020) true =
      ("V", [(("Q", some 2020, true), "V")], [], []) ∧
    Library.search_tv_show_cached [] [(("Q", some 2020), "V")]
        (fun _ _ => Transport.err) true "1" "Q" (some 2020) true =
      ("V", [(("Q", some 2020, true), "V")], [(("Q", some 2020), "V")], []) ∧
    ((Library.search_tv_show_cached [] [] (fun _ _ => Transport.ok []) true "1"
        "Q" (some 2020) true).2.2.1).lookup ("Q", some 2020) =
      some (Library.search_tv_show_cached [] [] (fun _ _ => Transport.ok [])
        true "1" "Q" (some 2020) true).1 :=
  ⟨(c8_memoization_on_success [(("Q", some 2020, true), "V")] []
      (fun _ _ => Transport.err) "1" "Q" (some 2020) true).1 "V" (by decide),
   (c8_memoization_on_success [] [(("Q", some 2020), "V")]
      (fun _ _ => Transport.err) "1" "Q" (some 2020) true).2.1 "V" (by decide)
     (by decide),
   (c8_memoization_on_success [] [] (fun _ _ => Transport.ok []) "1" "Q"
      (some 2020) true).2.2 [] (by decide) (by decide) rfl⟩

/-- Counterexample to C8 as stated: memoization is not keyed by the
`(query, year)` pair alone, and failed requests write nothing under it.
A call whose request fails returns the query with `_api_cache` untouched
(lines 137-139); `lru_cache` memoizes that return only under the full
argument tuple.  So a repeated lookup for the very same `(query, year)`
— now with `auto_select` off — misses both layers and issues a second
network request.  And the movie resolver's cleaned-filename branch
returns without caching, leaving the cache empty. -/
theorem c8_counterexample :
    (¬ (∀ (oracle : String → Option Nat → Transport (List TvShow))
        (choice query : String) (year : Option Nat) (a1 a2 : Bool),
        (Library.search_tv_show_cached
          (Library.search_tv_show_cached [] [] oracle true choice query year
            a1).2.1
          (Library.search_tv_show_cached [] [] oracle true choice query year
            a1).2.2.1
          oracle true choice query year a2).2.2.2 = [])) ∧
    TmdbApi.search_movie stubHelpers emptyMovieOracle ⟨false, false, true⟩ []
        "1" "Movie Q" (some 2019) true (some "file.mkv") =
      .ok (.filePair "file.mkv" "file.mkv", []) :=
  ⟨fun hall =>
    absurd (hall (fun _ _ => Transport.err) "1" "Show Q" (some 2020) true false)
      (by decide),
   rfl⟩

/-! ## C1 — idempotence of `clean_query` -/

theorem collapsedAux_fix (s : List Char) : ∀ b, collapsedAux b s = true →
    collapseWsAux b s = s := by
  induction s with
  | nil => intro b _; rfl
  | cons c cs ih =>
    intro b hb
    cases hsp : isSpaceChar c with
    | true =>
      cases b with
      | true => simp [collapsedAux, hsp] at hb
      | false =>
        simp only [collapsedAux, hsp] at hb
        simp only [if_true, Bool.false_eq_true, if_false, Bool.and_eq_true,
          beq_iff_eq] at hb
        simp only [collapseWsAux, hsp, if_true, Bool.false_eq_true, if_false]
        rw [ih true hb.2, hb.1]
    | false =>
      simp only [collapsedAux, hsp, Bool.false_eq_true, if_false] at hb
      simp only [collapseWsAux, hsp, Bool.false_eq_true, if_false]
      rw [ih false hb]

theorem collapsedAux_collapseWs (s : List Char) : ∀ b,
    collapsedAux b (collapseWsAux b s) = true := by
  induction s with
  | nil => intro b; rfl
  | cons c cs ih =>
    intro b
    cases hsp : isSpaceChar c with
    | true =>
      cases b with
      | true =>
        simp only [collapseWsAux, hsp, if_true]
        exact ih true
      | false =>
        simp only [collapseWsAux, hsp, if_true, Bool.false_eq_true, if_false]
        have hsp2 : isSpaceChar ' ' = true := by decide
        simp only [collapsedAux, hsp2, if_true, Bool.false_eq_true, if_false,
          Bool.and_eq_true, beq_self_eq_true, true_and]
        exact ih true
    | false =>
      simp only [collapseWsAux, hsp, Bool.false_eq_true, if_false]
      simp only [collapsedAux, hsp, Bool.false_eq_true, if_false]
      exact ih false

theorem collapsedAux_mono (s : List Char) (h : collapsedAux true s = true) :
    collapsedAux false s = true := by
  cases s with
  | nil => rfl
  | cons c cs =>
    cases hsp : isSpaceChar c with
    | true => simp [collapsedAux, hsp] at h
    | false => simpa [collapsedAux, hsp] using h

theorem collapsedAux_append_left (l₂ : List Char) : ∀ (l₁ : List Char) (b : Bool),
    collapsedAux b (l₁ ++ l₂) = true → collapsedAux b l₁ = true := by
  intro l₁
  induction l₁ with
  | nil => intro b _; rfl
  | cons c cs ih =>
    intro b hb
    cases hsp : isSpaceChar c with
    | true =>
      cases b with
      | true => simp [collapsedAux, hsp] at hb
      | false =>
        simp only [List.cons_append, collapsedAux, hsp, if_true,
          Bool.false_eq_true, if_false, Bool.and_eq_true, beq_iff_eq] at hb
        simp only [collapsedAux, hsp, if_true, Bool.false_eq_true, if_false,
          Bool.and_eq_true, beq_iff_eq]
        exact ⟨hb.1, ih true hb.2⟩
    | false =>
      simp only [List.cons_append, collapsedAux, hsp, Bool.false_eq_true,
        if_false] at hb
      simp only [collapsedAux, hsp, Bool.false_eq_true, if_false]
      exact ih false hb

theorem collapsedAux_append_right (l₂ : List Char) : ∀ (l₁ : List Char) (b : Bool),
    collapsedAux b (l₁ ++ l₂) = true → collapsedAux false l₂ = true := by
  intro l₁
  induction l₁ with
  | nil =>
    intro b hb
    cases b with
    | true => exact collapsedAux_mono l₂ hb
    | false => exact hb
  | cons c cs ih =>
    intro b hb
    cases hsp : isSpaceChar c with
    | true =>
      cases b with
      | true => simp [collapsedAux, hsp] at hb
      | false =>
        simp only [List.cons_append, collapsedAux, hsp, if_true,
          Bool.false_eq_true, if_false, Bool.and_eq_true, beq_iff_eq] at hb
        exact ih true hb.2
    | false =>
      simp only [List.cons_append, collapsedAux, hsp, Bool.false_eq_true,
        if_false] at hb
      exact ih false hb

theorem dropWhile_head_not (p : Char → Bool) (l : List Char) :
    ∀ c, (l.dropWhile p).head? = some c → p c = false := by
  induction l with
  | nil => intro c h; simp [List.dropWhile] at h
  | cons a t ih =>
    intro c h
    by_cases hpa : p a = true
    · rw [List.dropWhile_cons_of_pos hpa] at h
      exact ih c h
    · rw [List.dropWhile_cons_of_neg hpa] at h
      simp only [List.head?_cons, Option.some.injEq] at h
      rw [← h]
      exact Bool.eq_false_iff.mpr hpa

theorem dropWhile_eq_self_of_head (p : Char → Bool) (l : List Char)
    (h : ∀ c, l.head? = some c → p c = false) : l.dropWhile p = l := by
  cases l with
  | nil => rfl
  | cons a t =>
    have := h a (by simp)
    exact List.dropWhile_cons_of_neg (by simp [this])

theorem suffix_getLast? (l₁ l₂ : List Char) (h : l₂ <:+ l₁) (hne : l₂ ≠ []) :
    l₂.getLast? = l₁.getLast? := by
  obtain ⟨t, rfl⟩ := h
  rw [← List.head?_reverse, ← List.head?_reverse, List.reverse_append]
  cases hrev : l₂.reverse with
  | nil => exact absurd (by simpa using hrev) hne
  | cons a r => simp

theorem stripL_head (m : List Char) :
    ∀ c, (stripL m).head? = some c → isSpaceChar c = false := by
  intro c hc
  unfold stripL at hc
  rw [List.head?_reverse] at hc
  have hrs : (m.dropWhile isSpaceChar).reverse.dropWhile isSpaceChar <:+
      (m.dropWhile isSpaceChar).reverse := List.dropWhile_suffix _
  have hne : (m.dropWhile isSpaceChar).reverse.dropWhile isSpaceChar ≠ [] := by
    intro h0
    rw [h0] at hc
    simp at hc
  rw [suffix_getLast? _ _ hrs hne, List.getLast?_reverse] at hc
  exact dropWhile_head_not isSpaceChar m c hc

theorem stripL_last (m : List Char) :
    ∀ c, (stripL m).getLast? = some c → isSpaceChar c = false := by
  intro c hc
  unfold stripL at hc
  rw [List.getLast?_reverse] at hc
  exact dropWhile_head_not isSpaceChar _ c hc

theorem stripL_prefix_dropWhile (m : List Char) :
    stripL m <+: m.dropWhile isSpaceChar := by
  have hr : (m.dropWhile isSpaceChar).reverse.dropWhile isSpaceChar <:+
      (m.dropWhile isSpaceChar).reverse := List.dropWhile_suffix _
  have h2 : ((m.dropWhile isSpaceChar).reverse.dropWhile isSpaceChar).reverse.reverse
      <:+ (m.dropWhile isSpaceChar).reverse := by
    rwa [List.reverse_reverse]
  exact (List.reverse_suffix).mp h2

theorem collapsed_of_pre (l m : List Char) (h : l <+: m)
    (hm : collapsedAux false m = true) : collapsedAux false l = true := by
  obtain ⟨t, rfl⟩ := h
  exact collapsedAux_append_left t l false hm

theorem collapsed_of_suffix (l m : List Char) (h : l <:+ m)
    (hm : collapsedAux false m = true) : collapsedAux false l = true := by
  obtain ⟨t, rfl⟩ := h
  exact collapsedAux_append_right l t false hm

theorem collapsed_stripL (m : List Char) (hm : collapsedAux false m = true) :
    collapsedAux false (stripL m) = true := by
  have h1 : m.dropWhile isSpaceChar <:+ m := List.dropWhile_suffix _
  exact collapsed_of_pre _ _ (stripL_prefix_dropWhile m)
    (collapsed_of_suffix _ _ h1 hm)

theorem collapseStripL_collapsed (s : List Char) :
    collapsedAux false (collapseStripL s) = true :=
  collapsed_stripL _ (collapsedAux_collapseWs s false)

theorem collapseStripL_fix (t : List Char)
    (hc : collapsedAux false t = true)
    (hh : ∀ c, t.head? = some c → isSpaceChar c = false)
    (hl : ∀ c, t.getLast? = some c → isSpaceChar c = false) :
    collapseStripL t = t := by
  unfold collapseStripL
  rw [collapsedAux_fix t false hc]
  unfold stripL
  rw [dropWhile_eq_self_of_head isSpaceChar t hh]
  rw [dropWhile_eq_self_of_head isSpaceChar t.reverse
    (fun c h => hl c (by rwa [List.head?_reverse] at h))]
  exact List.reverse_reverse t

theorem findYearAux_fallback (c : Char) (cs pre yr : List Char)
    (ih : ∀ (prev : Option Char) (p y : List Char),
      findYearAux prev cs = some (p, y) → ∃ rest, cs = p ++ rest)
    (h : (match findYearAux (some c) cs with
      | some (p, y) => some (c :: p, y)
      | none => none) = some (pre, yr)) :
    ∃ rest, c :: cs = pre ++ rest := by
  rcases hfy : findYearAux (some c) cs with _ | ⟨p, y⟩
  · rw [hfy] at h; exact absurd h (by simp)
  · rw [hfy] at h
    simp only [Option.some.injEq, Prod.mk.injEq] at h
    obtain ⟨rest, hrest⟩ := ih (some c) p y hfy
    exact ⟨rest, by rw [← h.1, List.cons_append, ← hrest]⟩

theorem findYearAux_split (s : List Char) : ∀ (prev : Option Char)
    (pre yr : List Char), findYearAux prev s = some (pre, yr) →
    ∃ rest, s = pre ++ rest := by
  induction s with
  | nil => intro prev pre yr h; simp [findYearAux] at h
  | cons c cs ih =>
    intro prev pre yr h
    simp only [findYearAux] at h
    by_cases hg : (boundaryBefore prev && isDigitChar c) = true
    · rw [if_pos hg] at h
      split at h
      · rename_i d2 d3 d4 rest0
        by_cases hd : (isDigitChar d2 && isDigitChar d3 && isDigitChar d4 &&
            boundaryAfter rest0) = true
        · rw [if_pos hd] at h
          simp only [Option.some.injEq, Prod.mk.injEq] at h
          exact ⟨c :: d2 :: d3 :: d4 :: rest0, by rw [← h.1]; rfl⟩
        · rw [if_neg hd] at h
          exact findYearAux_fallback c _ pre yr ih h
      · exact findYearAux_fallback c _ pre yr ih h
    · rw [if_neg hg] at h
      exact findYearAux_fallback c _ pre yr ih h

theorem cleanQueryL_title_collapse_fixed (q : List Char) :
    collapseStripL (cleanQueryL q).1 = (cleanQueryL q).1 := by
  unfold cleanQueryL
  rcases hfy : findYearAux none
      (collapseStripL (removeEmptyParensL (stripSeasonTailL (stripKeywordsL q))))
    with _ | ⟨pre, yr⟩
  · simp only [hfy]
    exact collapseStripL_fix _ (collapseStripL_collapsed _)
      (stripL_head _) (stripL_last _)
  · simp only [hfy]
    obtain ⟨rest, hrest⟩ := findYearAux_split _ none pre yr hfy
    have hpre : pre <+: collapseStripL
        (removeEmptyParensL (stripSeasonTailL (stripKeywordsL q))) :=
      ⟨rest, hrest.symm⟩
    exact collapseStripL_fix _
      (collapsed_stripL pre
        (collapsed_of_pre _ _ hpre (collapseStripL_collapsed _)))
      (stripL_head _) (stripL_last _)

/-- C1 (amended): `clean_query` is idempotent on inputs whose title
component is untouched by the keyword-removal, season-truncation and
empty-parenthesis stages and contains no further word-bounded 4-digit
run.  The whitespace-collapse-and-strip stage is proved to be a no-op on
every title `clean_query` emits, so under those hypotheses the second
pass returns the title unchanged with no year. -/
theorem c1_conditional_idempotence (x : String)
    (hk : stripKeywordsL (cleanQueryL x.toList).1 = (cleanQueryL x.toList).1)
    (hs : stripSeasonTailL (cleanQueryL x.toList).1 = (cleanQueryL x.toList).1)
    (hp : removeEmptyParensL (cleanQueryL x.toList).1 = (cleanQueryL x.toList).1)
    (hy : findYearAux none (cleanQueryL x.toList).1 = none) :
    clean_query ((clean_query x).1) = ((clean_query x).1, none) := by
  have hfix := cleanQueryL_title_collapse_fixed x.toList
  rcases hcq : cleanQueryL x.toList with ⟨t, y⟩
  rw [hcq] at hk hs hp hy hfix
  simp only at hk hs hp hy hfix
  have h1 : clean_query x = (String.mk t, y.map String.mk) := by
    simp only [clean_query, hcq]
  have h2 : cleanQueryL (String.mk t).toList = (t, none) := by
    show cleanQueryL t = (t, none)
    simp only [cleanQueryL, hk, hs, hp, hfix, hy]
  rw [h1]
  simp only [clean_query, h2]
  rfl

/-- Witness for C1's amended theorem: on `"Spider.Man 2021"` the title
component is a fixed point of every stage and contains no further year,
so re-normalizing it is a no-op. -/
theorem c1_idempotence_witness :
    (stripKeywordsL (cleanQueryL "Spider.Man 2021".toList).1 =
      (cleanQueryL "Spider.Man 2021".toList).1 ∧
     stripSeasonTailL (cleanQueryL "Spider.Man 2021".toList).1 =
      (cleanQueryL "Spider.Man 2021".toList).1 ∧
     removeEmptyParensL (cleanQueryL "Spider.Man 2021".toList).1 =
      (cleanQueryL "Spider.Man 2021".toList).1 ∧
     findYearAux none (cleanQueryL "Spider.Man 2021".toList).1 = none) ∧
    clean_query ((clean_query "Spider.Man 2021").1) =
      ((clean_query "Spider.Man 2021").1, none) :=
  ⟨⟨by decide, by decide, by decide, by decide⟩,
   c1_conditional_idempotence "Spider.Man 2021" (by decide) (by decide)
     (by decide) (by decide)⟩

/-- Counterexample to C1 as stated: `clean_query` is not idempotent.  On
`"Movie 2019"` the first pass returns title `"Movie"` and year `"2019"`,
but re-normalizing the title loses the year component; and on
`"19(( ))99"` the empty-parenthesis stage creates the new token
`"19()99"` whose second pass collapses to a year, changing the title
component as well. -/
theorem c1_counterexample :
    (¬ (∀ x : String, clean_query (clean_query x).1 = clean_query x)) ∧
    (clean_query (clean_query "Movie 2019").1).2 ≠ (clean_query "Movie 2019").2 ∧
    (clean_query (clean_query "19(( ))99").1).1 ≠ (clean_query "19(( ))99").1 :=
  ⟨fun hall => absurd (hall "Movie 2019") (by decide), by decide, by decide⟩

end CineSync
